import Mathlib

set_option maxRecDepth 4000

/-!
# Verification of the `super-winner` emulator cores

This file gives a shallow embedding, in Lean 4, of the two instruction-set
emulators of the repository:

* `Duo` — the DuoVM core (`src/duovm.c`): a 16-bit-address toy machine with a
  one-byte opcode ISA, ROM/RAM split, an ALU with a carry flag, and a
  36×24 character-cell display cursor.
* `Nessy` — the Nessy core (`src/nessy.c`): a partial MOS 6502 CPU interpreter
  with a PPU register file and iNES (mapper 0) cartridge parsing.

Modelling conventions, used uniformly below:

* Machine integers are `Nat`.  A store into a `uint8_t` lvalue from a wider
  (int-typed) C expression is translated with `% 256`, a store into a
  `uint16_t` lvalue with `% 65536` — exactly where C performs an integer
  conversion.  Where C copies a byte-typed value into a byte-typed lvalue no
  conversion happens and none is inserted; "all stored bytes are `< 256`"
  is then an invariant supplied as a well-formedness hypothesis in theorems
  that need it.
* Byte arrays (`uint8_t mem[...]`) are total functions `Nat → Nat`; an array
  store is a pointwise function update.
* The display and the input device are external collaborators: drawing calls
  (`mvaddch`, `refresh`) have no modelled effect, and the blocking
  `read_button()` becomes an explicit input parameter of `step`.
* Fallible code (the DuoVM fatal aborts via `exit(1)`) returns
  `Except VMError _`; C functions that mutate state through a pointer return
  the updated state (paired with the read value where applicable).
-/

section ExceptLemmas

variable {ε α β : Type}

@[simp] theorem except_ok_bind (a : α) (f : α → Except ε β) :
    (Except.ok a >>= f) = f a := rfl

@[simp] theorem except_error_bind (e : ε) (f : α → Except ε β) :
    ((Except.error e : Except ε α) >>= f) = Except.error e := rfl

@[simp] theorem except_pure_eq_ok (a : α) : (pure a : Except ε α) = Except.ok a := rfl

@[simp] theorem except_bind_ok (r : Except ε α) : (r >>= fun a => Except.ok a) = r := by
  cases r <;> rfl

end ExceptLemmas

namespace Duo

/-! ## DuoVM state (`src/duovm.c`, globals)

`memory`, the CPU registers `PC A T D0 D1 C`, the VM flags and the display
cursor, translated from the global variables of `duovm.c`. -/

def MEM_SIZE : Nat := 65536

def SRAM_START : Nat := 224 * 256

def SCREEN_W : Nat := 36

def SCREEN_H : Nat := 24

/-- The two fatal aborts of the DuoVM memory accessors: an out-of-bounds
address (`check_addr`) and a write below `SRAM_START` (`mem_write`). -/
inductive VMError where
  | memOOB (addr : Nat)
  | romWrite (addr : Nat)
deriving DecidableEq

structure VMState where
  memory : Nat → Nat
  PC : Nat
  A : Nat
  T : Nat
  D0 : Nat
  D1 : Nat
  C : Bool
  running : Bool
  waiting_key : Bool
  cur_x : Nat
  cur_y : Nat

/-- `check_addr` (duovm.c:35): fatal when `addr >= MEM_SIZE`.  The `uint16_t`
parameter conversions of the C signature are placed at the call sites whose
argument expression is wider than 16 bits (see `mem_read16`). -/
def check_addr (addr : Nat) : Except VMError Unit :=
  if addr ≥ MEM_SIZE then Except.error (VMError.memOOB addr) else Except.ok ()

/-- `mem_read` (duovm.c:43). -/
def mem_read (s : VMState) (addr : Nat) : Except VMError Nat := do
  let _ ← check_addr addr
  pure (s.memory addr)

/-- `mem_write` (duovm.c:48): fatal below `SRAM_START`; the stored value is a
`uint8_t` parameter, hence `% 256`. -/
def mem_write (s : VMState) (addr v : Nat) : Except VMError VMState := do
  let _ ← check_addr addr
  if addr < SRAM_START then Except.error (VMError.romWrite addr)
  else pure { s with memory := fun a => if a = addr then v % 256 else s.memory a }

/-- `mem_read16` (duovm.c:58): little-endian 16-bit read.  The second call
passes the int expression `addr + 1` to `mem_read`'s `uint16_t` parameter,
hence the `% 65536`; the `uint16_t` return type gives the outer `% 65536`. -/
def mem_read16 (s : VMState) (addr : Nat) : Except VMError Nat := do
  let lo ← mem_read s addr
  let hi ← mem_read s ((addr + 1) % 65536)
  pure ((lo ||| (hi <<< 8)) % 65536)

/-- `put_char_vm` (duovm.c:71): draws at the cursor (no modelled effect) and
advances the cursor with wraparound `x → 0, y++` then `y → 0`.  `cur_x++` is
a `uint8_t` increment. -/
def put_char_vm (s : VMState) (_ch : Nat) : VMState :=
  let s := { s with cur_x := (s.cur_x + 1) % 256 }
  if s.cur_x ≥ SCREEN_W then
    let s := { s with cur_x := 0, cur_y := (s.cur_y + 1) % 256 }
    if s.cur_y ≥ SCREEN_H then { s with cur_y := 0 } else s
  else s

/-- `clear_screen_vm` (duovm.c:64): display-only, no VM state change. -/
def clear_screen_vm (s : VMState) : VMState := s

/-- `write_alu_dest` (duovm.c:105): destination 0 is `mem[A]`, else `D0`
(a `uint8_t` field, stored from the `uint8_t` parameter). -/
def write_alu_dest (s : VMState) (dest val : Nat) : Except VMError VMState :=
  if dest = 0 then mem_write s s.A val
  else pure { s with D0 := val % 256 }

/-!
The body of `step` (duovm.c:112) is a chain of mutually exclusive `if`
blocks on the fetched opcode.  Each block is translated as one `stageNN`
function (`NN` the opcode it tests), and `step` runs them in the C order;
this is the same sequential composition as the C body, merely with each
block named.
-/

/-- duovm.c:116 — `A = mem_read16(PC); PC += 2`. -/
def stage00 (opcode : Nat) (s : VMState) : Except VMError VMState :=
  if opcode = 0x00 then do
    let v ← mem_read16 s s.PC
    pure { s with A := v, PC := (s.PC + 2) % 65536 }
  else pure s

/-- duovm.c:117 — `D0 = mem_read(PC++)`. -/
def stage01 (opcode : Nat) (s : VMState) : Except VMError VMState :=
  if opcode = 0x01 then do
    let v ← mem_read s s.PC
    pure { s with D0 := v % 256, PC := (s.PC + 1) % 65536 }
  else pure s

/-- duovm.c:118 — `D1 = mem_read(PC++)`. -/
def stage02 (opcode : Nat) (s : VMState) : Except VMError VMState :=
  if opcode = 0x02 then do
    let v ← mem_read s s.PC
    pure { s with D1 := v % 256, PC := (s.PC + 1) % 65536 }
  else pure s

/-- duovm.c:119 — `D0 = mem_read(A)`. -/
def stage03 (opcode : Nat) (s : VMState) : Except VMError VMState :=
  if opcode = 0x03 then do
    let v ← mem_read s s.A
    pure { s with D0 := v % 256 }
  else pure s

/-- duovm.c:120 — `D1 = mem_read(A)`. -/
def stage04 (opcode : Nat) (s : VMState) : Except VMError VMState :=
  if opcode = 0x04 then do
    let v ← mem_read s s.A
    pure { s with D1 := v % 256 }
  else pure s

/-- duovm.c:121 — `T = (T & 0xFF00) | mem_read(A)`. -/
def stage05 (opcode : Nat) (s : VMState) : Except VMError VMState :=
  if opcode = 0x05 then do
    let v ← mem_read s s.A
    pure { s with T := ((s.T &&& 0xFF00) ||| v) % 65536 }
  else pure s

/-- duovm.c:122 — `T = (T & 0x00FF) | (mem_read(A) << 8)`. -/
def stage06 (opcode : Nat) (s : VMState) : Except VMError VMState :=
  if opcode = 0x06 then do
    let v ← mem_read s s.A
    pure { s with T := ((s.T &&& 0x00FF) ||| (v <<< 8)) % 65536 }
  else pure s

/-- duovm.c:123 — `A = T`. -/
def stage07 (opcode : Nat) (s : VMState) : Except VMError VMState :=
  if opcode = 0x07 then pure { s with A := s.T } else pure s

/-- duovm.c:124 — `PC = T`. -/
def stage08 (opcode : Nat) (s : VMState) : Except VMError VMState :=
  if opcode = 0x08 then pure { s with PC := s.T } else pure s

/-- duovm.c:127 — `PC = mem_read16(PC)`. -/
def stage20 (opcode : Nat) (s : VMState) : Except VMError VMState :=
  if opcode = 0x20 then do
    let t ← mem_read16 s s.PC
    pure { s with PC := t }
  else pure s

/-- duovm.c:128 — jump if carry set, else skip the operand. -/
def stage21 (opcode : Nat) (s : VMState) : Except VMError VMState :=
  if opcode = 0x21 then do
    let t ← mem_read16 s s.PC
    if s.C then pure { s with PC := t }
    else pure { s with PC := (s.PC + 2) % 65536 }
  else pure s

/-- duovm.c:133 — jump if carry clear, else skip the operand. -/
def stage22 (opcode : Nat) (s : VMState) : Except VMError VMState :=
  if opcode = 0x22 then do
    let t ← mem_read16 s s.PC
    if ¬ s.C then pure { s with PC := t }
    else pure { s with PC := (s.PC + 2) % 65536 }
  else pure s

/-- duovm.c:140 — `C = false`. -/
def stage40 (opcode : Nat) (s : VMState) : Except VMError VMState :=
  if opcode = 0x40 then pure { s with C := false } else pure s

/-- duovm.c:141 — `C = true`. -/
def stage41 (opcode : Nat) (s : VMState) : Except VMError VMState :=
  if opcode = 0x41 then pure { s with C := true } else pure s

/-- duovm.c:146 — ALU MOV (`alu == 0x60`). -/
def stage60 (opcode : Nat) (s : VMState) : Except VMError VMState :=
  if opcode &&& 0xFE = 0x60 then write_alu_dest s (opcode &&& 1) s.D0 else pure s

/-- duovm.c:148 — ALU ADC (`alu == 0x62`): `uint16_t r = D0 + D1 + C`. -/
def stage62 (opcode : Nat) (s : VMState) : Except VMError VMState :=
  if opcode &&& 0xFE = 0x62 then
    let r := (s.D0 + s.D1 + (if s.C then 1 else 0)) % 65536
    let s := { s with C := r > 0xFF }
    write_alu_dest s (opcode &&& 1) (r &&& 0xFF)
  else pure s

/-- duovm.c:154 — ALU SBC (`alu == 0x64`): `int r = D0 - D1 - C` (signed). -/
def stage64 (opcode : Nat) (s : VMState) : Except VMError VMState :=
  if opcode &&& 0xFE = 0x64 then
    let r : Int := (s.D0 : Int) - s.D1 - (if s.C then 1 else 0)
    let s := { s with C := r < 0 }
    write_alu_dest s (opcode &&& 1) (r.emod 256).toNat
  else pure s

/-- duovm.c:160 — ALU AND. -/
def stage66 (opcode : Nat) (s : VMState) : Except VMError VMState :=
  if opcode &&& 0xFE = 0x66 then write_alu_dest s (opcode &&& 1) (s.D0 &&& s.D1) else pure s

/-- duovm.c:161 — ALU OR. -/
def stage68 (opcode : Nat) (s : VMState) : Except VMError VMState :=
  if opcode &&& 0xFE = 0x68 then write_alu_dest s (opcode &&& 1) (s.D0 ||| s.D1) else pure s

/-- duovm.c:162 — ALU XOR. -/
def stage6A (opcode : Nat) (s : VMState) : Except VMError VMState :=
  if opcode &&& 0xFE = 0x6A then write_alu_dest s (opcode &&& 1) (s.D0 ^^^ s.D1) else pure s

/-- duovm.c:163 — ALU NOT: `(~D0) & 0xFF`. -/
def stage6C (opcode : Nat) (s : VMState) : Except VMError VMState :=
  if opcode &&& 0xFE = 0x6C then write_alu_dest s (opcode &&& 1) ((s.D0 ^^^ 0xFF) &&& 0xFF)
  else pure s

/-- duovm.c:165 — ALU ROL: shift left through carry. -/
def stage6E (opcode : Nat) (s : VMState) : Except VMError VMState :=
  if opcode &&& 0xFE = 0x6E then
    let r := ((s.D0 <<< 1) ||| (if s.C then 1 else 0)) % 65536
    let s := { s with C := r > 0xFF }
    write_alu_dest s (opcode &&& 1) (r &&& 0xFF)
  else pure s

/-- duovm.c:171 — ALU ROR: shift right through carry. -/
def stage70 (opcode : Nat) (s : VMState) : Except VMError VMState :=
  if opcode &&& 0xFE = 0x70 then
    let nextC := (s.D0 &&& 1) ≠ 0
    let r := ((s.D0 >>> 1) ||| (if s.C then 0x80 else 0)) % 256
    let s := { s with C := nextC }
    write_alu_dest s (opcode &&& 1) r
  else pure s

/-- duovm.c:179 — blocking button read written to `mem[A]`; `waiting_key` is
set for the duration of the read and cleared again afterwards. -/
def stageA0 (opcode : Nat) (button : Nat) (s : VMState) : Except VMError VMState :=
  if opcode = 0xA0 then do
    let t ← mem_write { s with waiting_key := true } s.A button
    pure { t with waiting_key := false }
  else pure s

/-- duovm.c:186 — `put_char_vm(mem_read(A))`. -/
def stageA1 (opcode : Nat) (s : VMState) : Except VMError VMState :=
  if opcode = 0xA1 then do
    let v ← mem_read s s.A
    pure (put_char_vm s v)
  else pure s

/-- duovm.c:187 — `cur_x = mem_read(A)` (a `uint8_t` field). -/
def stageA2 (opcode : Nat) (s : VMState) : Except VMError VMState :=
  if opcode = 0xA2 then do
    let v ← mem_read s s.A
    pure { s with cur_x := v % 256 }
  else pure s

/-- duovm.c:188 — `cur_y = mem_read(A)` (a `uint8_t` field). -/
def stageA3 (opcode : Nat) (s : VMState) : Except VMError VMState :=
  if opcode = 0xA3 then do
    let v ← mem_read s s.A
    pure { s with cur_y := v % 256 }
  else pure s

/-- duovm.c:189 — `clear_screen_vm()` (display-only). -/
def stageA4 (opcode : Nat) (s : VMState) : Except VMError VMState :=
  if opcode = 0xA4 then pure (clear_screen_vm s) else pure s

/-- The sequential `if` chain forming the body of `step` after the opcode
fetch (duovm.c:116–189), in the C order. -/
def stepRest (opcode button : Nat) (s : VMState) : Except VMError VMState := do
  let s ← stage00 opcode s
  let s ← stage01 opcode s
  let s ← stage02 opcode s
  let s ← stage03 opcode s
  let s ← stage04 opcode s
  let s ← stage05 opcode s
  let s ← stage06 opcode s
  let s ← stage07 opcode s
  let s ← stage08 opcode s
  let s ← stage20 opcode s
  let s ← stage21 opcode s
  let s ← stage22 opcode s
  let s ← stage40 opcode s
  let s ← stage41 opcode s
  let s ← stage60 opcode s
  let s ← stage62 opcode s
  let s ← stage64 opcode s
  let s ← stage66 opcode s
  let s ← stage68 opcode s
  let s ← stage6A opcode s
  let s ← stage6C opcode s
  let s ← stage6E opcode s
  let s ← stage70 opcode s
  let s ← stageA0 opcode button s
  let s ← stageA1 opcode s
  let s ← stageA2 opcode s
  let s ← stageA3 opcode s
  let s ← stageA4 opcode s
  pure s

/-- `step` (duovm.c:112): fetch the opcode at `PC`, advance `PC` (a `uint16_t`
increment), then run the sequential `if` chain of the C body.
`read_button()` is modelled by the `button` input parameter (the C
collaborator only ever returns 0–3). -/
def step (s : VMState) (button : Nat) : Except VMError VMState :=
  mem_read s s.PC >>= fun opcode =>
    stepRest opcode button { s with PC := (s.PC + 1) % 65536 }

/-- Cold start (duovm.c globals plus `load_hex`): all registers zero, cursor
at (0,0), memory as loaded from the program file. -/
def coldStart (mem : Nat → Nat) : VMState :=
  { memory := mem, PC := 0, A := 0, T := 0, D0 := 0, D1 := 0, C := false,
    running := true, waiting_key := false, cur_x := 0, cur_y := 0 }

/-- States reachable from `init` by executing DuoVM instructions (with
arbitrary button inputs). -/
inductive Reachable (init : VMState) : VMState → Prop where
  | refl : Reachable init init
  | step (s : VMState) (b : Nat) (s' : VMState) :
      Reachable init s → step s b = Except.ok s' → Reachable init s'

/-- Well-formedness of a DuoVM state: the `uint16_t` registers hold 16-bit
values (always true of the C program by typing). -/
def WF (s : VMState) : Prop := s.PC < 65536 ∧ s.A < 65536 ∧ s.T < 65536

theorem check_addr_ok {addr : Nat} (h : addr < 65536) :
    check_addr addr = Except.ok () := by
  simp [check_addr, MEM_SIZE, Nat.not_le.mpr h]

theorem mem_read_ok (s : VMState) {addr : Nat} (h : addr < 65536) :
    mem_read s addr = Except.ok (s.memory addr) := by
  simp [mem_read, check_addr_ok h]

theorem mem_read16_ok (s : VMState) {addr : Nat} (h : addr < 65536) :
    mem_read16 s addr =
      Except.ok ((s.memory addr ||| (s.memory ((addr + 1) % 65536) <<< 8)) % 65536) := by
  simp [mem_read16, mem_read_ok s h, mem_read_ok s (Nat.mod_lt _ (by norm_num))]

/-- `mem_write` never raises the out-of-bounds abort on a 16-bit address, and
on success only the memory changes. -/
theorem mem_write_spec (s : VMState) (addr v : Nat) (h : addr < 65536) :
    (∀ a, mem_write s addr v ≠ Except.error (VMError.memOOB a)) ∧
    (∀ t, mem_write s addr v = Except.ok t →
      t.PC = s.PC ∧ t.A = s.A ∧ t.T = s.T ∧ t.cur_x = s.cur_x ∧ t.cur_y = s.cur_y) := by
  simp only [mem_write, check_addr_ok h]
  constructor
  · intro a
    by_cases hrom : addr < SRAM_START <;> simp [hrom]
  · intro t ht
    by_cases hrom : addr < SRAM_START <;> simp [hrom] at ht
    cases ht
    simp

/-- `write_alu_dest` never raises the out-of-bounds abort when `A` is 16-bit,
and on success leaves registers `PC`, `A`, `T` and the cursor unchanged. -/
theorem write_alu_dest_spec (s : VMState) (d v : Nat) (hA : s.A < 65536) :
    (∀ a, write_alu_dest s d v ≠ Except.error (VMError.memOOB a)) ∧
    (∀ t, write_alu_dest s d v = Except.ok t →
      t.PC = s.PC ∧ t.A = s.A ∧ t.T = s.T ∧ t.cur_x = s.cur_x ∧ t.cur_y = s.cur_y) := by
  unfold write_alu_dest
  by_cases hd : d = 0
  · simpa [hd] using mem_write_spec s s.A v hA
  · constructor
    · intro a
      simp [hd]
    · intro t ht
      simp [hd] at ht
      cases ht
      simp

/-- Postcondition used to chain `step`'s stages: the result is never the
out-of-bounds abort, and on success the state is well-formed with the given
cursor position. -/
def Ok1 (x y : Nat) (r : Except VMError VMState) : Prop :=
  (∀ a, r ≠ Except.error (VMError.memOOB a)) ∧
  (∀ t, r = Except.ok t → WF t ∧ t.cur_x = x ∧ t.cur_y = y)

theorem ok1_ok {x y : Nat} {t : VMState} (h : WF t) (hx : t.cur_x = x) (hy : t.cur_y = y) :
    Ok1 x y (Except.ok t) := by
  refine ⟨fun a => by simp, fun u hu => ?_⟩
  cases hu
  exact ⟨h, hx, hy⟩

theorem ok1_bind {x y : Nat} {r : Except VMError VMState}
    {f : VMState → Except VMError VMState} (h1 : Ok1 x y r)
    (h2 : ∀ t, WF t → t.cur_x = x → t.cur_y = y → Ok1 x y (f t)) :
    Ok1 x y (r >>= f) := by
  cases r with
  | error e =>
    refine ⟨fun a he => h1.1 a ?_, fun t ht => by simp at ht⟩
    simpa using he
  | ok t =>
    obtain ⟨hw, hx, hy⟩ := h1.2 t rfl
    simpa using h2 t hw hx hy

theorem ok1_write_alu_dest (s : VMState) (d v : Nat) (h : WF s) :
    Ok1 s.cur_x s.cur_y (write_alu_dest s d v) := by
  obtain ⟨hn, hok⟩ := write_alu_dest_spec s d v h.2.1
  refine ⟨hn, fun t ht => ?_⟩
  obtain ⟨e1, e2, e3, e4, e5⟩ := hok t ht
  exact ⟨⟨e1 ▸ h.1, e2 ▸ h.2.1, e3 ▸ h.2.2⟩, e4, e5⟩

theorem stage00_spec (opcode : Nat) (s : VMState) (h : WF s) :
    Ok1 s.cur_x s.cur_y (stage00 opcode s) := by
  obtain ⟨hPC, hA, hT⟩ := h
  unfold stage00
  split
  · rw [mem_read16_ok s hPC]
    simp only [except_ok_bind, except_pure_eq_ok]
    exact ok1_ok ⟨Nat.mod_lt _ (by norm_num), Nat.mod_lt _ (by norm_num), hT⟩ rfl rfl
  · exact ok1_ok ⟨hPC, hA, hT⟩ rfl rfl

theorem stage01_spec (opcode : Nat) (s : VMState) (h : WF s) :
    Ok1 s.cur_x s.cur_y (stage01 opcode s) := by
  obtain ⟨hPC, hA, hT⟩ := h
  unfold stage01
  split
  · rw [mem_read_ok s hPC]
    simp only [except_ok_bind, except_pure_eq_ok]
    exact ok1_ok ⟨Nat.mod_lt _ (by norm_num), hA, hT⟩ rfl rfl
  · exact ok1_ok ⟨hPC, hA, hT⟩ rfl rfl

theorem stage02_spec (opcode : Nat) (s : VMState) (h : WF s) :
    Ok1 s.cur_x s.cur_y (stage02 opcode s) := by
  obtain ⟨hPC, hA, hT⟩ := h
  unfold stage02
  split
  · rw [mem_read_ok s hPC]
    simp only [except_ok_bind, except_pure_eq_ok]
    exact ok1_ok ⟨Nat.mod_lt _ (by norm_num), hA, hT⟩ rfl rfl
  · exact ok1_ok ⟨hPC, hA, hT⟩ rfl rfl

theorem stage03_spec (opcode : Nat) (s : VMState) (h : WF s) :
    Ok1 s.cur_x s.cur_y (stage03 opcode s) := by
  obtain ⟨hPC, hA, hT⟩ := h
  unfold stage03
  split
  · rw [mem_read_ok s hA]
    simp only [except_ok_bind, except_pure_eq_ok]
    exact ok1_ok ⟨hPC, hA, hT⟩ rfl rfl
  · exact ok1_ok ⟨hPC, hA, hT⟩ rfl rfl

theorem stage04_spec (opcode : Nat) (s : VMState) (h : WF s) :
    Ok1 s.cur_x s.cur_y (stage04 opcode s) := by
  obtain ⟨hPC, hA, hT⟩ := h
  unfold stage04
  split
  · rw [mem_read_ok s hA]
    simp only [except_ok_bind, except_pure_eq_ok]
    exact ok1_ok ⟨hPC, hA, hT⟩ rfl rfl
  · exact ok1_ok ⟨hPC, hA, hT⟩ rfl rfl

theorem stage05_spec (opcode : Nat) (s : VMState) (h : WF s) :
    Ok1 s.cur_x s.cur_y (stage05 opcode s) := by
  obtain ⟨hPC, hA, hT⟩ := h
  unfold stage05
  split
  · rw [mem_read_ok s hA]
    simp only [except_ok_bind, except_pure_eq_ok]
    exact ok1_ok ⟨hPC, hA, Nat.mod_lt _ (by norm_num)⟩ rfl rfl
  · exact ok1_ok ⟨hPC, hA, hT⟩ rfl rfl

theorem stage06_spec (opcode : Nat) (s : VMState) (h : WF s) :
    Ok1 s.cur_x s.cur_y (stage06 opcode s) := by
  obtain ⟨hPC, hA, hT⟩ := h
  unfold stage06
  split
  · rw [mem_read_ok s hA]
    simp only [except_ok_bind, except_pure_eq_ok]
    exact ok1_ok ⟨hPC, hA, Nat.mod_lt _ (by norm_num)⟩ rfl rfl
  · exact ok1_ok ⟨hPC, hA, hT⟩ rfl rfl

theorem stage07_spec (opcode : Nat) (s : VMState) (h : WF s) :
    Ok1 s.cur_x s.cur_y (stage07 opcode s) := by
  obtain ⟨hPC, hA, hT⟩ := h
  unfold stage07
  split
  · exact ok1_ok ⟨hPC, hT, hT⟩ rfl rfl
  · exact ok1_ok ⟨hPC, hA, hT⟩ rfl rfl

theorem stage08_spec (opcode : Nat) (s : VMState) (h : WF s) :
    Ok1 s.cur_x s.cur_y (stage08 opcode s) := by
  obtain ⟨hPC, hA, hT⟩ := h
  unfold stage08
  split
  · exact ok1_ok ⟨hT, hA, hT⟩ rfl rfl
  · exact ok1_ok ⟨hPC, hA, hT⟩ rfl rfl

theorem stage20_spec (opcode : Nat) (s : VMState) (h : WF s) :
    Ok1 s.cur_x s.cur_y (stage20 opcode s) := by
  obtain ⟨hPC, hA, hT⟩ := h
  unfold stage20
  split
  · rw [mem_read16_ok s hPC]
    simp only [except_ok_bind, except_pure_eq_ok]
    exact ok1_ok ⟨Nat.mod_lt _ (by norm_num), hA, hT⟩ rfl rfl
  · exact ok1_ok ⟨hPC, hA, hT⟩ rfl rfl

theorem stage21_spec (opcode : Nat) (s : VMState) (h : WF s) :
    Ok1 s.cur_x s.cur_y (stage21 opcode s) := by
  obtain ⟨hPC, hA, hT⟩ := h
  unfold stage21
  split
  · rw [mem_read16_ok s hPC]
    simp only [except_ok_bind, except_pure_eq_ok]
    split
    · exact ok1_ok ⟨Nat.mod_lt _ (by norm_num), hA, hT⟩ rfl rfl
    · exact ok1_ok ⟨Nat.mod_lt _ (by norm_num), hA, hT⟩ rfl rfl
  · exact ok1_ok ⟨hPC, hA, hT⟩ rfl rfl

theorem stage22_spec (opcode : Nat) (s : VMState) (h : WF s) :
    Ok1 s.cur_x s.cur_y (stage22 opcode s) := by
  obtain ⟨hPC, hA, hT⟩ := h
  unfold stage22
  split
  · rw [mem_read16_ok s hPC]
    simp only [except_ok_bind, except_pure_eq_ok]
    split
    · exact ok1_ok ⟨Nat.mod_lt _ (by norm_num), hA, hT⟩ rfl rfl
    · exact ok1_ok ⟨Nat.mod_lt _ (by norm_num), hA, hT⟩ rfl rfl
  · exact ok1_ok ⟨hPC, hA, hT⟩ rfl rfl

theorem stage40_spec (opcode : Nat) (s : VMState) (h : WF s) :
    Ok1 s.cur_x s.cur_y (stage40 opcode s) := by
  obtain ⟨hPC, hA, hT⟩ := h
  unfold stage40
  split
  · exact ok1_ok ⟨hPC, hA, hT⟩ rfl rfl
  · exact ok1_ok ⟨hPC, hA, hT⟩ rfl rfl

theorem stage41_spec (opcode : Nat) (s : VMState) (h : WF s) :
    Ok1 s.cur_x s.cur_y (stage41 opcode s) := by
  obtain ⟨hPC, hA, hT⟩ := h
  unfold stage41
  split
  · exact ok1_ok ⟨hPC, hA, hT⟩ rfl rfl
  · exact ok1_ok ⟨hPC, hA, hT⟩ rfl rfl

theorem stage60_spec (opcode : Nat) (s : VMState) (h : WF s) :
    Ok1 s.cur_x s.cur_y (stage60 opcode s) := by
  unfold stage60
  split
  · exact ok1_write_alu_dest s _ _ h
  · exact ok1_ok h rfl rfl

theorem stage62_spec (opcode : Nat) (s : VMState) (h : WF s) :
    Ok1 s.cur_x s.cur_y (stage62 opcode s) := by
  unfold stage62
  split
  · exact ok1_write_alu_dest _ _ _ h
  · exact ok1_ok h rfl rfl

theorem stage64_spec (opcode : Nat) (s : VMState) (h : WF s) :
    Ok1 s.cur_x s.cur_y (stage64 opcode s) := by
  unfold stage64
  split
  · exact ok1_write_alu_dest _ _ _ h
  · exact ok1_ok h rfl rfl

theorem stage66_spec (opcode : Nat) (s : VMState) (h : WF s) :
    Ok1 s.cur_x s.cur_y (stage66 opcode s) := by
  unfold stage66
  split
  · exact ok1_write_alu_dest _ _ _ h
  · exact ok1_ok h rfl rfl

theorem stage68_spec (opcode : Nat) (s : VMState) (h : WF s) :
    Ok1 s.cur_x s.cur_y (stage68 opcode s) := by
  unfold stage68
  split
  · exact ok1_write_alu_dest _ _ _ h
  · exact ok1_ok h rfl rfl

theorem stage6A_spec (opcode : Nat) (s : VMState) (h : WF s) :
    Ok1 s.cur_x s.cur_y (stage6A opcode s) := by
  unfold stage6A
  split
  · exact ok1_write_alu_dest _ _ _ h
  · exact ok1_ok h rfl rfl

theorem stage6C_spec (opcode : Nat) (s : VMState) (h : WF s) :
    Ok1 s.cur_x s.cur_y (stage6C opcode s) := by
  unfold stage6C
  split
  · exact ok1_write_alu_dest _ _ _ h
  · exact ok1_ok h rfl rfl

theorem stage6E_spec (opcode : Nat) (s : VMState) (h : WF s) :
    Ok1 s.cur_x s.cur_y (stage6E opcode s) := by
  unfold stage6E
  split
  · exact ok1_write_alu_dest _ _ _ h
  · exact ok1_ok h rfl rfl

theorem stage70_spec (opcode : Nat) (s : VMState) (h : WF s) :
    Ok1 s.cur_x s.cur_y (stage70 opcode s) := by
  unfold stage70
  split
  · exact ok1_write_alu_dest _ _ _ h
  · exact ok1_ok h rfl rfl

theorem stageA0_spec (opcode b : Nat) (s : VMState) (h : WF s) :
    Ok1 s.cur_x s.cur_y (stageA0 opcode b s) := by
  obtain ⟨hPC, hA, hT⟩ := h
  unfold stageA0
  split
  · obtain ⟨hn, hok⟩ := mem_write_spec { s with waiting_key := true } s.A b hA
    cases hw : mem_write { s with waiting_key := true } s.A b with
    | error e =>
      simp only [except_error_bind]
      refine ⟨fun a he => hn a ?_, fun t ht => by simp at ht⟩
      rw [hw]
      exact he
    | ok t =>
      obtain ⟨e1, e2, e3, e4, e5⟩ := hok t hw
      simp only [except_ok_bind, except_pure_eq_ok]
      exact ok1_ok ⟨e1 ▸ hPC, e2 ▸ hA, e3 ▸ hT⟩ e4 e5
  · exact ok1_ok ⟨hPC, hA, hT⟩ rfl rfl

theorem stageA4_spec (opcode : Nat) (s : VMState) (h : WF s) :
    Ok1 s.cur_x s.cur_y (stageA4 opcode s) := by
  unfold stageA4 clear_screen_vm
  split
  · exact ok1_ok h rfl rfl
  · exact ok1_ok h rfl rfl

theorem stage00_skip {opcode : Nat} (h : opcode ≠ 0x00) (s : VMState) :
    stage00 opcode s = pure s := by
  unfold stage00
  rw [if_neg h]

theorem stage01_skip {opcode : Nat} (h : opcode ≠ 0x01) (s : VMState) :
    stage01 opcode s = pure s := by
  unfold stage01
  rw [if_neg h]

theorem stage02_skip {opcode : Nat} (h : opcode ≠ 0x02) (s : VMState) :
    stage02 opcode s = pure s := by
  unfold stage02
  rw [if_neg h]

theorem stage03_skip {opcode : Nat} (h : opcode ≠ 0x03) (s : VMState) :
    stage03 opcode s = pure s := by
  unfold stage03
  rw [if_neg h]

theorem stage04_skip {opcode : Nat} (h : opcode ≠ 0x04) (s : VMState) :
    stage04 opcode s = pure s := by
  unfold stage04
  rw [if_neg h]

theorem stage05_skip {opcode : Nat} (h : opcode ≠ 0x05) (s : VMState) :
    stage05 opcode s = pure s := by
  unfold stage05
  rw [if_neg h]

theorem stage06_skip {opcode : Nat} (h : opcode ≠ 0x06) (s : VMState) :
    stage06 opcode s = pure s := by
  unfold stage06
  rw [if_neg h]

theorem stage07_skip {opcode : Nat} (h : opcode ≠ 0x07) (s : VMState) :
    stage07 opcode s = pure s := by
  unfold stage07
  rw [if_neg h]

theorem stage08_skip {opcode : Nat} (h : opcode ≠ 0x08) (s : VMState) :
    stage08 opcode s = pure s := by
  unfold stage08
  rw [if_neg h]

theorem stage20_skip {opcode : Nat} (h : opcode ≠ 0x20) (s : VMState) :
    stage20 opcode s = pure s := by
  unfold stage20
  rw [if_neg h]

theorem stage21_skip {opcode : Nat} (h : opcode ≠ 0x21) (s : VMState) :
    stage21 opcode s = pure s := by
  unfold stage21
  rw [if_neg h]

theorem stage22_skip {opcode : Nat} (h : opcode ≠ 0x22) (s : VMState) :
    stage22 opcode s = pure s := by
  unfold stage22
  rw [if_neg h]

theorem stage40_skip {opcode : Nat} (h : opcode ≠ 0x40) (s : VMState) :
    stage40 opcode s = pure s := by
  unfold stage40
  rw [if_neg h]

theorem stage41_skip {opcode : Nat} (h : opcode ≠ 0x41) (s : VMState) :
    stage41 opcode s = pure s := by
  unfold stage41
  rw [if_neg h]

theorem stage60_skip {opcode : Nat} (h : opcode &&& 0xFE ≠ 0x60) (s : VMState) :
    stage60 opcode s = pure s := by
  unfold stage60
  rw [if_neg h]

theorem stage62_skip {opcode : Nat} (h : opcode &&& 0xFE ≠ 0x62) (s : VMState) :
    stage62 opcode s = pure s := by
  unfold stage62
  rw [if_neg h]

theorem stage64_skip {opcode : Nat} (h : opcode &&& 0xFE ≠ 0x64) (s : VMState) :
    stage64 opcode s = pure s := by
  unfold stage64
  rw [if_neg h]

theorem stage66_skip {opcode : Nat} (h : opcode &&& 0xFE ≠ 0x66) (s : VMState) :
    stage66 opcode s = pure s := by
  unfold stage66
  rw [if_neg h]

theorem stage68_skip {opcode : Nat} (h : opcode &&& 0xFE ≠ 0x68) (s : VMState) :
    stage68 opcode s = pure s := by
  unfold stage68
  rw [if_neg h]

theorem stage6A_skip {opcode : Nat} (h : opcode &&& 0xFE ≠ 0x6A) (s : VMState) :
    stage6A opcode s = pure s := by
  unfold stage6A
  rw [if_neg h]

theorem stage6C_skip {opcode : Nat} (h : opcode &&& 0xFE ≠ 0x6C) (s : VMState) :
    stage6C opcode s = pure s := by
  unfold stage6C
  rw [if_neg h]

theorem stage6E_skip {opcode : Nat} (h : opcode &&& 0xFE ≠ 0x6E) (s : VMState) :
    stage6E opcode s = pure s := by
  unfold stage6E
  rw [if_neg h]

theorem stage70_skip {opcode : Nat} (h : opcode &&& 0xFE ≠ 0x70) (s : VMState) :
    stage70 opcode s = pure s := by
  unfold stage70
  rw [if_neg h]

theorem stageA0_skip {opcode : Nat} (h : opcode ≠ 0xA0) (b : Nat) (s : VMState) :
    stageA0 opcode b s = pure s := by
  unfold stageA0
  rw [if_neg h]

theorem stageA1_skip {opcode : Nat} (h : opcode ≠ 0xA1) (s : VMState) :
    stageA1 opcode s = pure s := by
  unfold stageA1
  rw [if_neg h]

theorem stageA2_skip {opcode : Nat} (h : opcode ≠ 0xA2) (s : VMState) :
    stageA2 opcode s = pure s := by
  unfold stageA2
  rw [if_neg h]

theorem stageA3_skip {opcode : Nat} (h : opcode ≠ 0xA3) (s : VMState) :
    stageA3 opcode s = pure s := by
  unfold stageA3
  rw [if_neg h]

theorem stageA4_skip {opcode : Nat} (h : opcode ≠ 0xA4) (s : VMState) :
    stageA4 opcode s = pure s := by
  unfold stageA4
  rw [if_neg h]

/-- `put_char_vm` changes only the cursor. -/
theorem put_char_vm_wf (s : VMState) (ch : Nat) (h : WF s) : WF (put_char_vm s ch) := by
  simp only [put_char_vm, SCREEN_W, SCREEN_H]
  split
  · split
    · exact ⟨h.1, h.2.1, h.2.2⟩
    · exact ⟨h.1, h.2.1, h.2.2⟩
  · exact ⟨h.1, h.2.1, h.2.2⟩

/-- The `put_char_vm` cursor advance stays on the 36×24 screen. -/
theorem put_char_vm_cursor (s : VMState) (ch : Nat)
    (hx : s.cur_x < 36) (hy : s.cur_y < 24) :
    (put_char_vm s ch).cur_x < 36 ∧ (put_char_vm s ch).cur_y < 24 := by
  simp only [put_char_vm, SCREEN_W, SCREEN_H]
  split
  · split
    · constructor <;> simp <;> omega
    · next h2 =>
      simp only [ge_iff_le, Nat.not_le] at h2
      constructor <;> simp <;> omega
  · next h1 =>
    simp only [ge_iff_le, Nat.not_le] at h1
    constructor <;> simp <;> omega

/-- When the fetched opcode is one of the three cursor-writing instructions,
every other stage of `stepRest` skips and the chain collapses to that stage. -/
theorem stepRest_eq_A1 (b : Nat) (s : VMState) :
    stepRest 0xA1 b s = stageA1 0xA1 s := by
  unfold stepRest
  simp only [@stage00_skip 0xA1 (by decide), @stage01_skip 0xA1 (by decide), @stage02_skip 0xA1 (by decide),
    @stage03_skip 0xA1 (by decide), @stage04_skip 0xA1 (by decide), @stage05_skip 0xA1 (by decide),
    @stage06_skip 0xA1 (by decide), @stage07_skip 0xA1 (by decide), @stage08_skip 0xA1 (by decide),
    @stage20_skip 0xA1 (by decide), @stage21_skip 0xA1 (by decide), @stage22_skip 0xA1 (by decide),
    @stage40_skip 0xA1 (by decide), @stage41_skip 0xA1 (by decide), @stage60_skip 0xA1 (by decide),
    @stage62_skip 0xA1 (by decide), @stage64_skip 0xA1 (by decide), @stage66_skip 0xA1 (by decide),
    @stage68_skip 0xA1 (by decide), @stage6A_skip 0xA1 (by decide), @stage6C_skip 0xA1 (by decide),
    @stage6E_skip 0xA1 (by decide), @stage70_skip 0xA1 (by decide), @stageA0_skip 0xA1 (by decide),
    @stageA2_skip 0xA1 (by decide), @stageA3_skip 0xA1 (by decide), @stageA4_skip 0xA1 (by decide),
    except_pure_eq_ok, except_ok_bind, except_bind_ok]

theorem stepRest_eq_A2 (b : Nat) (s : VMState) :
    stepRest 0xA2 b s = stageA2 0xA2 s := by
  unfold stepRest
  simp only [@stage00_skip 0xA2 (by decide), @stage01_skip 0xA2 (by decide), @stage02_skip 0xA2 (by decide),
    @stage03_skip 0xA2 (by decide), @stage04_skip 0xA2 (by decide), @stage05_skip 0xA2 (by decide),
    @stage06_skip 0xA2 (by decide), @stage07_skip 0xA2 (by decide), @stage08_skip 0xA2 (by decide),
    @stage20_skip 0xA2 (by decide), @stage21_skip 0xA2 (by decide), @stage22_skip 0xA2 (by decide),
    @stage40_skip 0xA2 (by decide), @stage41_skip 0xA2 (by decide), @stage60_skip 0xA2 (by decide),
    @stage62_skip 0xA2 (by decide), @stage64_skip 0xA2 (by decide), @stage66_skip 0xA2 (by decide),
    @stage68_skip 0xA2 (by decide), @stage6A_skip 0xA2 (by decide), @stage6C_skip 0xA2 (by decide),
    @stage6E_skip 0xA2 (by decide), @stage70_skip 0xA2 (by decide), @stageA0_skip 0xA2 (by decide),
    @stageA1_skip 0xA2 (by decide), @stageA3_skip 0xA2 (by decide), @stageA4_skip 0xA2 (by decide),
    except_pure_eq_ok, except_ok_bind, except_bind_ok]

theorem stepRest_eq_A3 (b : Nat) (s : VMState) :
    stepRest 0xA3 b s = stageA3 0xA3 s := by
  unfold stepRest
  simp only [@stage00_skip 0xA3 (by decide), @stage01_skip 0xA3 (by decide), @stage02_skip 0xA3 (by decide),
    @stage03_skip 0xA3 (by decide), @stage04_skip 0xA3 (by decide), @stage05_skip 0xA3 (by decide),
    @stage06_skip 0xA3 (by decide), @stage07_skip 0xA3 (by decide), @stage08_skip 0xA3 (by decide),
    @stage20_skip 0xA3 (by decide), @stage21_skip 0xA3 (by decide), @stage22_skip 0xA3 (by decide),
    @stage40_skip 0xA3 (by decide), @stage41_skip 0xA3 (by decide), @stage60_skip 0xA3 (by decide),
    @stage62_skip 0xA3 (by decide), @stage64_skip 0xA3 (by decide), @stage66_skip 0xA3 (by decide),
    @stage68_skip 0xA3 (by decide), @stage6A_skip 0xA3 (by decide), @stage6C_skip 0xA3 (by decide),
    @stage6E_skip 0xA3 (by decide), @stage70_skip 0xA3 (by decide), @stageA0_skip 0xA3 (by decide),
    @stageA1_skip 0xA3 (by decide), @stageA2_skip 0xA3 (by decide), @stageA4_skip 0xA3 (by decide),
    except_pure_eq_ok, except_ok_bind, except_bind_ok]

/-- The stage chain on an opcode other than `0xA1`, `0xA2`, `0xA3` never
aborts out-of-bounds, preserves well-formedness and leaves the cursor
unchanged. -/
theorem stepRest_ok1 (opcode b : Nat) (s : VMState) (h : WF s)
    (h1 : opcode ≠ 0xA1) (h2 : opcode ≠ 0xA2) (h3 : opcode ≠ 0xA3) :
    Ok1 s.cur_x s.cur_y (stepRest opcode b s) := by
  unfold stepRest
  refine ok1_bind (stage00_spec opcode s h) fun t1 w1 x1 y1 => ?_
  rw [← x1, ← y1]
  refine ok1_bind (stage01_spec opcode t1 w1) fun t2 w2 x2 y2 => ?_
  rw [← x2, ← y2]
  refine ok1_bind (stage02_spec opcode t2 w2) fun t3 w3 x3 y3 => ?_
  rw [← x3, ← y3]
  refine ok1_bind (stage03_spec opcode t3 w3) fun t4 w4 x4 y4 => ?_
  rw [← x4, ← y4]
  refine ok1_bind (stage04_spec opcode t4 w4) fun t5 w5 x5 y5 => ?_
  rw [← x5, ← y5]
  refine ok1_bind (stage05_spec opcode t5 w5) fun t6 w6 x6 y6 => ?_
  rw [← x6, ← y6]
  refine ok1_bind (stage06_spec opcode t6 w6) fun t7 w7 x7 y7 => ?_
  rw [← x7, ← y7]
  refine ok1_bind (stage07_spec opcode t7 w7) fun t8 w8 x8 y8 => ?_
  rw [← x8, ← y8]
  refine ok1_bind (stage08_spec opcode t8 w8) fun t9 w9 x9 y9 => ?_
  rw [← x9, ← y9]
  refine ok1_bind (stage20_spec opcode t9 w9) fun t10 w10 x10 y10 => ?_
  rw [← x10, ← y10]
  refine ok1_bind (stage21_spec opcode t10 w10) fun t11 w11 x11 y11 => ?_
  rw [← x11, ← y11]
  refine ok1_bind (stage22_spec opcode t11 w11) fun t12 w12 x12 y12 => ?_
  rw [← x12, ← y12]
  refine ok1_bind (stage40_spec opcode t12 w12) fun t13 w13 x13 y13 => ?_
  rw [← x13, ← y13]
  refine ok1_bind (stage41_spec opcode t13 w13) fun t14 w14 x14 y14 => ?_
  rw [← x14, ← y14]
  refine ok1_bind (stage60_spec opcode t14 w14) fun t15 w15 x15 y15 => ?_
  rw [← x15, ← y15]
  refine ok1_bind (stage62_spec opcode t15 w15) fun t16 w16 x16 y16 => ?_
  rw [← x16, ← y16]
  refine ok1_bind (stage64_spec opcode t16 w16) fun t17 w17 x17 y17 => ?_
  rw [← x17, ← y17]
  refine ok1_bind (stage66_spec opcode t17 w17) fun t18 w18 x18 y18 => ?_
  rw [← x18, ← y18]
  refine ok1_bind (stage68_spec opcode t18 w18) fun t19 w19 x19 y19 => ?_
  rw [← x19, ← y19]
  refine ok1_bind (stage6A_spec opcode t19 w19) fun t20 w20 x20 y20 => ?_
  rw [← x20, ← y20]
  refine ok1_bind (stage6C_spec opcode t20 w20) fun t21 w21 x21 y21 => ?_
  rw [← x21, ← y21]
  refine ok1_bind (stage6E_spec opcode t21 w21) fun t22 w22 x22 y22 => ?_
  rw [← x22, ← y22]
  refine ok1_bind (stage70_spec opcode t22 w22) fun t23 w23 x23 y23 => ?_
  rw [← x23, ← y23]
  refine ok1_bind (stageA0_spec opcode b t23 w23) fun t24 w24 x24 y24 => ?_
  simp only [stageA1_skip h1, stageA2_skip h2, stageA3_skip h3, except_pure_eq_ok,
    except_ok_bind]
  rw [← x24, ← y24]
  refine ok1_bind (stageA4_spec opcode t24 w24) fun t25 w25 x25 y25 => ?_
  rw [← x25, ← y25]
  exact ok1_ok w25 rfl rfl

/-- Master characterization of one DuoVM `step` on a well-formed state:
the out-of-bounds abort is unreachable, well-formedness is preserved, and
the cursor is changed only by opcode `0xA1` (advance with wrap, staying on
the screen) and by opcodes `0xA2`/`0xA3` (loaded raw from `mem[A]`). -/
theorem step_spec (s : VMState) (b : Nat) (h : WF s) :
    (∀ a, step s b ≠ Except.error (VMError.memOOB a)) ∧
    (∀ s', step s b = Except.ok s' →
      WF s' ∧
      (s.memory s.PC = 0xA1 → s.cur_x < 36 → s.cur_y < 24 →
        s'.cur_x < 36 ∧ s'.cur_y < 24) ∧
      (s.memory s.PC = 0xA2 → s'.cur_x = s.memory s.A % 256 ∧ s'.cur_y = s.cur_y) ∧
      (s.memory s.PC = 0xA3 → s'.cur_x = s.cur_x ∧ s'.cur_y = s.memory s.A % 256) ∧
      (s.memory s.PC ≠ 0xA1 → s.memory s.PC ≠ 0xA2 → s.memory s.PC ≠ 0xA3 →
        s'.cur_x = s.cur_x ∧ s'.cur_y = s.cur_y)) := by
  obtain ⟨hPC, hA, hT⟩ := h
  have hstep : step s b =
      stepRest (s.memory s.PC) b { s with PC := (s.PC + 1) % 65536 } := by
    unfold step
    rw [mem_read_ok s hPC]
    simp only [except_ok_bind]
  have hwf1 : WF { s with PC := (s.PC + 1) % 65536 } :=
    ⟨Nat.mod_lt _ (by norm_num), hA, hT⟩
  by_cases e1 : s.memory s.PC = 0xA1
  · rw [hstep, e1, stepRest_eq_A1]
    unfold stageA1
    rw [if_pos rfl]
    rw [mem_read_ok _ hA]
    simp only [except_ok_bind, except_pure_eq_ok]
    refine ⟨fun a => by simp, fun s' hs' => ?_⟩
    cases hs'
    refine ⟨put_char_vm_wf _ _ hwf1, ?_, ?_, ?_, ?_⟩
    · intro _ hx hy
      exact put_char_vm_cursor _ _ hx hy
    · intro hc
      exact absurd hc (by decide)
    · intro hc
      exact absurd hc (by decide)
    · intro hc
      exact absurd rfl hc
  · by_cases e2 : s.memory s.PC = 0xA2
    · rw [hstep, e2, stepRest_eq_A2]
      unfold stageA2
      rw [if_pos rfl]
      rw [mem_read_ok _ hA]
      simp only [except_ok_bind, except_pure_eq_ok]
      refine ⟨fun a => by simp, fun s' hs' => ?_⟩
      cases hs'
      refine ⟨⟨hwf1.1, hA, hT⟩, ?_, ?_, ?_, ?_⟩
      · intro hc
        exact absurd hc (by decide)
      · intro _
        exact ⟨rfl, rfl⟩
      · intro hc
        exact absurd hc (by decide)
      · intro _ hc
        exact absurd rfl hc
    · by_cases e3 : s.memory s.PC = 0xA3
      · rw [hstep, e3, stepRest_eq_A3]
        unfold stageA3
        rw [if_pos rfl]
        rw [mem_read_ok _ hA]
        simp only [except_ok_bind, except_pure_eq_ok]
        refine ⟨fun a => by simp, fun s' hs' => ?_⟩
        cases hs'
        refine ⟨⟨hwf1.1, hA, hT⟩, ?_, ?_, ?_, ?_⟩
        · intro hc
          exact absurd hc (by decide)
        · intro hc
          exact absurd hc (by decide)
        · intro _
          exact ⟨rfl, rfl⟩
        · intro _ _ hc
          exact absurd rfl hc
      · rw [hstep]
        have key := stepRest_ok1 (s.memory s.PC) b _ hwf1 e1 e2 e3
        refine ⟨key.1, fun s' hs' => ?_⟩
        obtain ⟨hw, hx, hy⟩ := key.2 s' hs'
        exact ⟨hw, fun hc => absurd hc e1, fun hc => absurd hc e2,
          fun hc => absurd hc e3, fun _ _ _ => ⟨hx, hy⟩⟩

/-- C9: on a well-formed DuoVM state every address a `step` passes to
`mem_read`/`mem_write` is a 16-bit value, so `check_addr`'s fatal
out-of-bounds branch never fires (the only reachable abort is the ROM-write
one); and `mem_read16` at `0xFFFF` wraps, reading its high byte from address
`0x0000` instead of faulting. -/
theorem no_oob_abort :
    (∀ (s : VMState) (b : Nat), WF s → ∀ a, step s b ≠ Except.error (VMError.memOOB a)) ∧
    (∀ s : VMState, s.memory 0xFFFF < 256 → s.memory 0x0000 < 256 →
      mem_read16 s 0xFFFF = Except.ok (s.memory 0xFFFF ||| (s.memory 0x0000 <<< 8))) := by
  constructor
  · intro s b h a
    exact (step_spec s b h).1 a
  · intro s h1 h2
    rw [mem_read16_ok s (by norm_num)]
    norm_num
    have hlo : s.memory 0xFFFF < 2 ^ 16 := by omega
    have hhi : s.memory 0 <<< 8 < 2 ^ 16 := by
      rw [Nat.shiftLeft_eq]
      omega
    have := Nat.or_lt_two_pow hlo hhi
    norm_num at this
    exact this

/-- C9 witness: the theorem instantiated at the all-zero cold-start state. -/
theorem no_oob_abort_witness :
    (step (coldStart fun _ => 0) 0 ≠ Except.error (VMError.memOOB 0)) ∧
    mem_read16 (coldStart fun _ => 0) 0xFFFF = Except.ok 0 := by
  constructor
  · exact no_oob_abort.1 (coldStart fun _ => 0) 0
      ⟨by norm_num [coldStart], by norm_num [coldStart], by norm_num [coldStart]⟩ 0
  · have := no_oob_abort.2 (coldStart fun _ => 0) (by norm_num [coldStart])
      (by norm_num [coldStart])
    simpa [coldStart] using this

/-- The program image used to break the cursor invariant: its first byte is
the opcode `0xA2` (set `cur_x` from `mem[A]`), so with `A = 0` the loaded
byte is `0xA2 = 162` itself. -/
def c8mem : Nat → Nat := fun a => if a = 0 then 0xA2 else 0

/-- The state after executing that single instruction from cold start. -/
def c8bad : VMState := { coldStart c8mem with PC := 1, cur_x := 0xA2 }

/-- C8 counterexample: the cursor invariant `cur_x ∈ [0,36) ∧ cur_y ∈ [0,24)`
does NOT hold in every state reachable from cold start: opcode `0xA2` loads
`cur_x` from an arbitrary memory byte without any clamp, and one step of the
program byte `0xA2` (with `A = 0`) reaches `cur_x = 162`. -/
theorem cursor_invariant_fails :
    ¬ (∀ s', Reachable (coldStart c8mem) s' → s'.cur_x < 36 ∧ s'.cur_y < 24) := by
  intro h
  have hstep : step (coldStart c8mem) 0 = Except.ok c8bad := by rfl
  have hr : Reachable (coldStart c8mem) c8bad :=
    Reachable.step _ 0 _ Reachable.refl hstep
  exact absurd (h c8bad hr).1 (by decide)

/-- C8 amended: the cursor invariant holds at cold start and is preserved by
every DuoVM instruction, provided each executed `0xA2` (resp. `0xA3`) loads a
byte `< 36` (resp. `< 24`) — the two cursor-setting opcodes are the only ones
that can break it, since they load `cur_x`/`cur_y` unclamped from `mem[A]`. -/
theorem cursor_invariant_amended :
    (∀ m : Nat → Nat, (coldStart m).cur_x < 36 ∧ (coldStart m).cur_y < 24) ∧
    (∀ (s : VMState) (b : Nat) (s' : VMState), WF s → step s b = Except.ok s' →
      (s.memory s.PC = 0xA2 → s.memory s.A < 36) →
      (s.memory s.PC = 0xA3 → s.memory s.A < 24) →
      s.cur_x < 36 → s.cur_y < 24 →
      WF s' ∧ s'.cur_x < 36 ∧ s'.cur_y < 24) := by
  constructor
  · intro m
    exact ⟨by norm_num [coldStart], by norm_num [coldStart]⟩
  · intro s b s' hwf hstep hA2 hA3 hx hy
    obtain ⟨hwf', hc1, hc2, hc3, hc4⟩ := (step_spec s b hwf).2 s' hstep
    refine ⟨hwf', ?_⟩
    by_cases e1 : s.memory s.PC = 0xA1
    · exact hc1 e1 hx hy
    by_cases e2 : s.memory s.PC = 0xA2
    · obtain ⟨ex, ey⟩ := hc2 e2
      have hb := hA2 e2
      constructor
      · rw [ex]
        omega
      · rw [ey]
        exact hy
    by_cases e3 : s.memory s.PC = 0xA3
    · obtain ⟨ex, ey⟩ := hc3 e3
      have hb := hA3 e3
      constructor
      · rw [ex]
        exact hx
      · rw [ey]
        omega
    · obtain ⟨ex, ey⟩ := hc4 e1 e2 e3
      exact ⟨ex ▸ hx, ey ▸ hy⟩

/-- The state after one step of the all-zero program from cold start
(opcode `0x00` loads `A` from the zero word and advances `PC` to 3). -/
def duoW0 : VMState := { coldStart (fun _ => 0) with PC := 3 }

/-- C8 amended witness: the preservation theorem instantiated on the all-zero
program's first step. -/
theorem cursor_invariant_amended_witness :
    WF duoW0 ∧ duoW0.cur_x < 36 ∧ duoW0.cur_y < 24 := by
  refine cursor_invariant_amended.2 (coldStart fun _ => 0) 0 duoW0
    ⟨by norm_num [coldStart], by norm_num [coldStart], by norm_num [coldStart]⟩
    (by rfl) (fun h => absurd h (by decide)) (fun h => absurd h (by decide))
    (by norm_num [coldStart]) (by norm_num [coldStart])

end Duo

namespace Nessy

/-! ## Nessy (`src/nessy.c`)

Conventions for this namespace: a `uint16_t` parameter is reduced `% 65536`
and a `uint8_t` parameter `% 256` on entry (C's conversion at the call);
an assignment whose C right-hand side is an int-typed expression is stored
through the corresponding `% 2^w` (C's conversion at the store), while a
direct copy between same-typed lvalues is stored raw; `p &= ~FLAG` becomes
`p &&& (0xFF - FLAG)`, the complement taken in the 8 bits the store keeps. -/

def NES_RAM_SIZE : Nat := 0x800

def PRG_ROM_BANK_SIZE : Nat := 0x4000

def CHR_ROM_BANK_SIZE : Nat := 0x2000

def FLAG_CARRY : Nat := 1

def FLAG_ZERO : Nat := 2

def FLAG_INTERRUPT : Nat := 4

def FLAG_DECIMAL : Nat := 8

def FLAG_BREAK : Nat := 16

def FLAG_UNUSED : Nat := 32

def FLAG_OVERFLOW : Nat := 64

def FLAG_NEGATIVE : Nat := 128

@[ext]
structure Cartridge where
  prg_rom : Nat → Nat
  chr_rom : Nat → Nat
  prg_rom_size : Nat
  chr_rom_size : Nat

structure PPU where
  ctrl : Nat
  mask : Nat
  status : Nat
  oam_addr : Nat
  scroll_latch : Nat
  addr_latch : Nat
  vram_addr : Nat
  temp_addr : Nat
  fine_x : Nat
  read_buffer : Nat
  vram : Nat → Nat
  palette : Nat → Nat
  oam : Nat → Nat
  framebuffer : Nat → Nat
  scanline : Nat
  cycle : Nat
  nmi_triggered : Bool

structure CPU where
  a : Nat
  x : Nat
  y : Nat
  sp : Nat
  p : Nat
  pc : Nat
  cycles : Nat

structure NES where
  cpu : CPU
  ppu : PPU
  cart : Cartridge
  ram : Nat → Nat

structure RomImage where
  rom_data : Nat → Nat
  rom_size : Nat

/-- Replace one byte of a ROM image (used below to state that `parse_ines`
never reads header byte 7). -/
def setByte (image : RomImage) (k v : Nat) : RomImage :=
  { image with rom_data := fun i => if i = k then v else image.rom_data i }

/-- `ppu_reset` (nessy.c:76): zero everything, then `status = 0xA0`. -/
def ppu_reset : PPU :=
  { ctrl := 0, mask := 0, status := 0xA0, oam_addr := 0, scroll_latch := 0,
    addr_latch := 0, vram_addr := 0, temp_addr := 0, fine_x := 0,
    read_buffer := 0, vram := fun _ => 0, palette := fun _ => 0,
    oam := fun _ => 0, framebuffer := fun _ => 0, scanline := 0, cycle := 0,
    nmi_triggered := false }

/-- `cpu_reset` (nessy.c:81). -/
def cpu_reset (reset_vector : Nat) : CPU :=
  { a := 0, x := 0, y := 0, sp := 0xFD, p := FLAG_INTERRUPT ||| FLAG_UNUSED,
    pc := reset_vector % 65536, cycles := 7 }

/-- `ppu_mirror_vram_addr` (nessy.c:94). -/
def ppu_mirror_vram_addr (addr : Nat) : Nat :=
  let addr := addr &&& 0x2FFF
  if 0x3000 ≤ addr ∧ addr ≤ 0x3EFF then addr - 0x1000 else addr

/-- `ppu_read` (nessy.c:102): pure (mutates nothing). -/
def ppu_read (nes : NES) (addr : Nat) : Nat :=
  let addr := (addr % 65536) &&& 0x3FFF
  if addr < 0x2000 then
    if nes.cart.chr_rom_size = 0 then 0
    else nes.cart.chr_rom (addr % nes.cart.chr_rom_size)
  else if addr < 0x3F00 then
    nes.ppu.vram (ppu_mirror_vram_addr addr &&& 0x7FF)
  else
    nes.ppu.palette ((0x3F00 ||| (addr &&& 0x1F)) &&& 0x1F)

/-- `ppu_write` (nessy.c:119). -/
def ppu_write (nes : NES) (addr value : Nat) : NES :=
  let addr := (addr % 65536) &&& 0x3FFF
  let value := value % 256
  if addr < 0x2000 then
    if nes.cart.chr_rom_size = 0 then nes
    else { nes with cart := { nes.cart with chr_rom :=
      fun i => if i = addr % nes.cart.chr_rom_size then value else nes.cart.chr_rom i } }
  else if addr < 0x3F00 then
    let a := ppu_mirror_vram_addr addr &&& 0x7FF
    { nes with ppu := { nes.ppu with vram :=
      fun i => if i = a then value else nes.ppu.vram i } }
  else
    let a := (0x3F00 ||| (addr &&& 0x1F)) &&& 0x1F
    { nes with ppu := { nes.ppu with palette :=
      fun i => if i = a then value else nes.ppu.palette i } }

/-- `ppu_read_register` (nessy.c:138): a CPU-visible register read, which may
mutate the PPU (status read clears bit 7 and the `addr_latch`; data read
moves the read buffer and advances `vram_addr`).  The two branches of the
$2007 case each perform the shared `vram_addr` advance of nessy.c:159. -/
def ppu_read_register (nes : NES) (addr : Nat) : Nat × NES :=
  let addr := addr % 65536
  match addr &&& 0x7 with
  | 2 =>
    let value := nes.ppu.status
    let ppu := { nes.ppu with status := nes.ppu.status &&& 0x7F, addr_latch := 0 }
    (value, { nes with ppu := ppu })
  | 4 => (nes.ppu.oam nes.ppu.oam_addr, nes)
  | 7 =>
    let vram_addr := nes.ppu.vram_addr
    let value := ppu_read nes vram_addr
    let inc := if nes.ppu.ctrl &&& 0x04 ≠ 0 then 32 else 1
    if vram_addr < 0x3F00 then
      let buffered := nes.ppu.read_buffer
      let ppu := { nes.ppu with read_buffer := value, vram_addr := (vram_addr + inc) % 65536 }
      (buffered, { nes with ppu := ppu })
    else
      let buffered := ppu_read nes (vram_addr - 0x1000)
      let ppu := { nes.ppu with read_buffer := buffered, vram_addr := (vram_addr + inc) % 65536 }
      (value, { nes with ppu := ppu })
  | _ => (0, nes)

/-- `ppu_write_register` (nessy.c:167). -/
def ppu_write_register (nes : NES) (addr value : Nat) : NES :=
  let addr := addr % 65536
  let value := value % 256
  match addr &&& 0x7 with
  | 0 =>
    let t := (nes.ppu.temp_addr &&& 0xF3FF) ||| ((value &&& 0x03) <<< 10)
    { nes with ppu := { nes.ppu with ctrl := value, temp_addr := t } }
  | 1 => { nes with ppu := { nes.ppu with mask := value } }
  | 3 => { nes with ppu := { nes.ppu with oam_addr := value } }
  | 4 =>
    let oam := fun i => if i = nes.ppu.oam_addr then value else nes.ppu.oam i
    { nes with ppu := { nes.ppu with oam := oam, oam_addr := (nes.ppu.oam_addr + 1) % 256 } }
  | 5 =>
    if nes.ppu.scroll_latch = 0 then
      let t := (nes.ppu.temp_addr &&& 0xFFE0) ||| (value >>> 3)
      { nes with ppu := { nes.ppu with fine_x := value &&& 0x7, temp_addr := t, scroll_latch := 1 } }
    else
      let t := (nes.ppu.temp_addr &&& 0x8FFF) ||| ((value &&& 0x07) <<< 12)
      let t := (t &&& 0xFC1F) ||| ((value &&& 0xF8) <<< 2)
      { nes with ppu := { nes.ppu with temp_addr := t, scroll_latch := 0 } }
  | 6 =>
    if nes.ppu.addr_latch = 0 then
      let t := (nes.ppu.temp_addr &&& 0x00FF) ||| ((value &&& 0x3F) <<< 8)
      { nes with ppu := { nes.ppu with temp_addr := t, addr_latch := 1 } }
    else
      let t := (nes.ppu.temp_addr &&& 0xFF00) ||| value
      { nes with ppu := { nes.ppu with temp_addr := t, vram_addr := t, addr_latch := 0 } }
  | 7 =>
    let nes := ppu_write nes nes.ppu.vram_addr value
    let inc := if nes.ppu.ctrl &&& 0x04 ≠ 0 then 32 else 1
    { nes with ppu := { nes.ppu with vram_addr := (nes.ppu.vram_addr + inc) % 65536 } }
  | _ => nes

/-- `ppu_step` (nessy.c:213). -/
def ppu_step (ppu : PPU) : PPU :=
  let ppu := { ppu with cycle := ppu.cycle + 1 }
  if ppu.cycle ≥ 341 then
    let ppu := { ppu with cycle := 0, scanline := ppu.scanline + 1 }
    let ppu : PPU :=
      if ppu.scanline = 241 then
        let ppu := { ppu with status := (ppu.status ||| 0x80) % 256 }
        if ppu.ctrl &&& 0x80 ≠ 0 then { ppu with nmi_triggered := true } else ppu
      else ppu
    if ppu.scanline ≥ 262 then
      { ppu with scanline := 0, status := ppu.status &&& 0x7F, nmi_triggered := false }
    else ppu
  else ppu

/-- `cpu_push` (nessy.c:232): store at `0x100 + sp`, then decrement `sp`
(a `uint8_t`, so modulo 256). -/
def cpu_push (nes : NES) (value : Nat) : NES :=
  let value := value % 256
  { nes with
    ram := fun i => if i = 0x100 + nes.cpu.sp then value else nes.ram i,
    cpu := { nes.cpu with sp := (nes.cpu.sp + 255) % 256 } }

/-- `cpu_pop` (nessy.c:236): increment `sp` modulo 256, then read. -/
def cpu_pop (nes : NES) : Nat × NES :=
  let sp := (nes.cpu.sp + 1) % 256
  (nes.ram (0x100 + sp), { nes with cpu := { nes.cpu with sp := sp } })

/-- `cpu_set_zn` (nessy.c:240). -/
def cpu_set_zn (cpu : CPU) (value : Nat) : CPU :=
  let value := value % 256
  let cpu :=
    if value = 0 then { cpu with p := (cpu.p ||| FLAG_ZERO) % 256 }
    else { cpu with p := cpu.p &&& 0xFD }
  if value &&& 0x80 ≠ 0 then { cpu with p := (cpu.p ||| FLAG_NEGATIVE) % 256 }
  else { cpu with p := cpu.p &&& 0x7F }

/-- `cpu_read` (nessy.c:253): the CPU bus read; reading a PPU register may
mutate the PPU, hence the paired state. -/
def cpu_read (nes : NES) (addr : Nat) : Nat × NES :=
  let addr := addr % 65536
  if addr < 0x2000 then (nes.ram (addr &&& 0x7FF), nes)
  else if addr < 0x4000 then ppu_read_register nes addr
  else if addr ≥ 0x8000 then
    let prg_size := nes.cart.prg_rom_size
    if prg_size = PRG_ROM_BANK_SIZE then
      (nes.cart.prg_rom ((addr - 0x8000) % PRG_ROM_BANK_SIZE), nes)
    else (nes.cart.prg_rom ((addr - 0x8000) % prg_size), nes)
  else (0, nes)

/-- `cpu_write` (nessy.c:270). -/
def cpu_write (nes : NES) (addr value : Nat) : NES :=
  let addr := addr % 65536
  let value := value % 256
  if addr < 0x2000 then
    { nes with ram := fun i => if i = (addr &&& 0x7FF) then value else nes.ram i }
  else if addr < 0x4000 then ppu_write_register nes addr value
  else nes

/-- `cpu_nmi` (nessy.c:281). -/
def cpu_nmi (nes : NES) : NES :=
  let nes := cpu_push nes (nes.cpu.pc >>> 8)
  let nes := cpu_push nes (nes.cpu.pc &&& 0xFF)
  let nes := cpu_push nes (nes.cpu.p &&& 0xEF)
  let nes := { nes with cpu := { nes.cpu with p := (nes.cpu.p ||| FLAG_INTERRUPT) % 256 } }
  let rlo := cpu_read nes 0xFFFA
  let rhi := cpu_read rlo.2 0xFFFB
  { rhi.2 with cpu := { rhi.2.cpu with pc := ((rhi.1 <<< 8) ||| rlo.1) % 65536 } }

structure AddrResult where
  addr : Nat
  value : Nat
  page_crossed : Bool

/-- `addr_immediate` (nessy.c:298): the operand address is `pc` itself. -/
def addr_immediate (cpu : CPU) : AddrResult × CPU :=
  ({ addr := cpu.pc, value := 0, page_crossed := false },
   { cpu with pc := (cpu.pc + 1) % 65536 })

/-- `addr_zero_page` (nessy.c:303). -/
def addr_zero_page (nes : NES) : AddrResult × NES :=
  let r := cpu_read nes nes.cpu.pc
  let nes := { r.2 with cpu := { r.2.cpu with pc := (r.2.cpu.pc + 1) % 65536 } }
  ({ addr := r.1 % 256, value := 0, page_crossed := false }, nes)

/-- `addr_zero_page_x` (nessy.c:309): `uint8_t addr = base + x`. -/
def addr_zero_page_x (nes : NES) : AddrResult × NES :=
  let r := cpu_read nes nes.cpu.pc
  let nes := { r.2 with cpu := { r.2.cpu with pc := (r.2.cpu.pc + 1) % 65536 } }
  let base := r.1 % 256
  ({ addr := (base + nes.cpu.x) % 256, value := 0, page_crossed := false }, nes)

/-- `addr_zero_page_y` (nessy.c:316). -/
def addr_zero_page_y (nes : NES) : AddrResult × NES :=
  let r := cpu_read nes nes.cpu.pc
  let nes := { r.2 with cpu := { r.2.cpu with pc := (r.2.cpu.pc + 1) % 65536 } }
  let base := r.1 % 256
  ({ addr := (base + nes.cpu.y) % 256, value := 0, page_crossed := false }, nes)

/-- `addr_absolute` (nessy.c:323): little-endian 16-bit operand. -/
def addr_absolute (nes : NES) : AddrResult × NES :=
  let rlo := cpu_read nes nes.cpu.pc
  let nes := { rlo.2 with cpu := { rlo.2.cpu with pc := (rlo.2.cpu.pc + 1) % 65536 } }
  let rhi := cpu_read nes nes.cpu.pc
  let nes := { rhi.2 with cpu := { rhi.2.cpu with pc := (rhi.2.cpu.pc + 1) % 65536 } }
  let lo := rlo.1 % 65536
  let hi := rhi.1 % 65536
  ({ addr := ((hi <<< 8) ||| lo) % 65536, value := 0, page_crossed := false }, nes)

/-- `addr_absolute_x` (nessy.c:330). -/
def addr_absolute_x (nes : NES) : AddrResult × NES :=
  let rlo := cpu_read nes nes.cpu.pc
  let nes := { rlo.2 with cpu := { rlo.2.cpu with pc := (rlo.2.cpu.pc + 1) % 65536 } }
  let rhi := cpu_read nes nes.cpu.pc
  let nes := { rhi.2 with cpu := { rhi.2.cpu with pc := (rhi.2.cpu.pc + 1) % 65536 } }
  let lo := rlo.1 % 65536
  let hi := rhi.1 % 65536
  let base := ((hi <<< 8) ||| lo) % 65536
  let addr := (base + nes.cpu.x) % 65536
  ({ addr := addr, value := 0, page_crossed := (addr &&& 0xFF00) ≠ (base &&& 0xFF00) }, nes)

/-- `addr_absolute_y` (nessy.c:339). -/
def addr_absolute_y (nes : NES) : AddrResult × NES :=
  let rlo := cpu_read nes nes.cpu.pc
  let nes := { rlo.2 with cpu := { rlo.2.cpu with pc := (rlo.2.cpu.pc + 1) % 65536 } }
  let rhi := cpu_read nes nes.cpu.pc
  let nes := { rhi.2 with cpu := { rhi.2.cpu with pc := (rhi.2.cpu.pc + 1) % 65536 } }
  let lo := rlo.1 % 65536
  let hi := rhi.1 % 65536
  let base := ((hi <<< 8) ||| lo) % 65536
  let addr := (base + nes.cpu.y) % 65536
  ({ addr := addr, value := 0, page_crossed := (addr &&& 0xFF00) ≠ (base &&& 0xFF00) }, nes)

/-- `addr_indirect` (nessy.c:348), used only by `JMP (a)`: the high byte of
the target is fetched from `(ptr & 0xFF00) | ((ptr + 1) & 0xFF)` — the 6502
page-wrap bug. -/
def addr_indirect (nes : NES) : AddrResult × NES :=
  let rlo := cpu_read nes nes.cpu.pc
  let nes := { rlo.2 with cpu := { rlo.2.cpu with pc := (rlo.2.cpu.pc + 1) % 65536 } }
  let rhi := cpu_read nes nes.cpu.pc
  let nes := { rhi.2 with cpu := { rhi.2.cpu with pc := (rhi.2.cpu.pc + 1) % 65536 } }
  let lo := rlo.1 % 65536
  let hi := rhi.1 % 65536
  let ptr := ((hi <<< 8) ||| lo) % 65536
  let rb0 := cpu_read nes ptr
  let rb1 := cpu_read rb0.2 ((ptr &&& 0xFF00) ||| ((ptr + 1) &&& 0xFF))
  ({ addr := (rb0.1 ||| (rb1.1 <<< 8)) % 65536, value := 0, page_crossed := false }, rb1.2)

/-- `addr_indexed_indirect` (nessy.c:357): `(d,X)`. -/
def addr_indexed_indirect (nes : NES) : AddrResult × NES :=
  let r := cpu_read nes nes.cpu.pc
  let nes := { r.2 with cpu := { r.2.cpu with pc := (r.2.cpu.pc + 1) % 65536 } }
  let base := r.1 % 256
  let ptr := (base + nes.cpu.x) % 256
  let rb0 := cpu_read nes ptr
  let rb1 := cpu_read rb0.2 ((ptr + 1) % 256)
  ({ addr := (rb0.1 ||| (rb1.1 <<< 8)) % 65536, value := 0, page_crossed := false }, rb1.2)

/-- `addr_indirect_indexed` (nessy.c:365): `(d),Y`. -/
def addr_indirect_indexed (nes : NES) : AddrResult × NES :=
  let r := cpu_read nes nes.cpu.pc
  let nes := { r.2 with cpu := { r.2.cpu with pc := (r.2.cpu.pc + 1) % 65536 } }
  let base := r.1 % 256
  let rb0 := cpu_read nes base
  let rb1 := cpu_read rb0.2 ((base + 1) % 256)
  let addr := (rb0.1 ||| (rb1.1 <<< 8)) % 65536
  let final_addr := (addr + rb1.2.cpu.y) % 65536
  ({ addr := final_addr, value := 0,
     page_crossed := (final_addr &&& 0xFF00) ≠ (addr &&& 0xFF00) }, rb1.2)

/-- `cpu_branch` (nessy.c:373): relative branch with a signed 8-bit offset;
taken branches add one cycle, two when crossing a page. -/
def cpu_branch (nes : NES) (condition : Bool) : NES :=
  let r := cpu_read nes nes.cpu.pc
  let offset := r.1 % 256
  let nes := { r.2 with cpu := { r.2.cpu with pc := (r.2.cpu.pc + 1) % 65536 } }
  if condition then
    let prev_pc := nes.cpu.pc
    -- `(uint16_t)(pc + (int8_t)offset)`: for offset ≥ 128 add offset − 256 ≡ offset + 65280
    let pc := (nes.cpu.pc + (if offset < 128 then offset else offset + 65280)) % 65536
    let nes := { nes with cpu := { nes.cpu with pc := pc, cycles := nes.cpu.cycles + 1 } }
    if (prev_pc &&& 0xFF00) ≠ (pc &&& 0xFF00) then
      { nes with cpu := { nes.cpu with cycles := nes.cpu.cycles + 1 } }
    else nes
  else nes

/-- `cpu_adc` (nessy.c:386).  `~(a ^ value)` is masked by `0x80`, so the
complement is taken in the low 8 bits (`^^^ 0xFF`). -/
def cpu_adc (cpu : CPU) (value : Nat) : CPU :=
  let value := value % 256
  let sum := (cpu.a + value + (if cpu.p &&& FLAG_CARRY ≠ 0 then 1 else 0)) % 65536
  let cpu :=
    if sum > 0xFF then { cpu with p := (cpu.p ||| FLAG_CARRY) % 256 }
    else { cpu with p := cpu.p &&& 0xFE }
  let result := sum % 256
  let cpu :=
    if (((cpu.a ^^^ value) ^^^ 0xFF) &&& (cpu.a ^^^ result)) &&& 0x80 ≠ 0 then
      { cpu with p := (cpu.p ||| FLAG_OVERFLOW) % 256 }
    else { cpu with p := cpu.p &&& 0xBF }
  let cpu := { cpu with a := result }
  cpu_set_zn cpu cpu.a

/-- `cpu_sbc` (nessy.c:403): `cpu_adc(cpu, (uint8_t)(~value))`. -/
def cpu_sbc (cpu : CPU) (value : Nat) : CPU :=
  let value := value % 256
  cpu_adc cpu (value ^^^ 0xFF)

/-- `cpu_compare` (nessy.c:407): `uint16_t diff = (uint16_t)reg - value`
(two's-complement wrap). -/
def cpu_compare (cpu : CPU) (reg value : Nat) : CPU :=
  let reg := reg % 256
  let value := value % 256
  let diff := (reg + 65536 - value) % 65536
  let cpu :=
    if reg ≥ value then { cpu with p := (cpu.p ||| FLAG_CARRY) % 256 }
    else { cpu with p := cpu.p &&& 0xFE }
  cpu_set_zn cpu (diff % 256)

/-- `cpu_step` (nessy.c:417): fetch, decode and execute one instruction.
Within each case the whole-machine state is threaded through the bus
accessors exactly as the C mutates it in place. -/
def cpu_step (nes : NES) : NES :=
  let r0 := cpu_read nes nes.cpu.pc
  let opcode := r0.1
  let nes := { r0.2 with cpu := { r0.2.cpu with pc := (r0.2.cpu.pc + 1) % 65536 } }
  match opcode with
  | 0x00 =>
    let nes := { nes with cpu := { nes.cpu with pc := (nes.cpu.pc + 1) % 65536 } }
    let nes := cpu_push nes (nes.cpu.pc >>> 8)
    let nes := cpu_push nes (nes.cpu.pc &&& 0xFF)
    let nes := cpu_push nes (nes.cpu.p ||| FLAG_BREAK ||| FLAG_UNUSED)
    let nes := { nes with cpu := { nes.cpu with p := (nes.cpu.p ||| FLAG_INTERRUPT) % 256 } }
    let rlo := cpu_read nes 0xFFFE
    let rhi := cpu_read rlo.2 0xFFFF
    let nes := rhi.2
    { nes with cpu := { nes.cpu with pc := (rlo.1 ||| (rhi.1 <<< 8)) % 65536, cycles := nes.cpu.cycles + 7 } }
  | 0x01 =>
    let m := addr_indexed_indirect nes
    let nes := m.2
    let rv := cpu_read nes m.1.addr
    let nes := rv.2
    let nes := { nes with cpu := { nes.cpu with a := (nes.cpu.a ||| rv.1) % 256 } }
    let nes := { nes with cpu := cpu_set_zn nes.cpu nes.cpu.a }
    { nes with cpu := { nes.cpu with cycles := nes.cpu.cycles + 6 } }
  | 0x05 =>
    let m := addr_zero_page nes
    let nes := m.2
    let rv := cpu_read nes m.1.addr
    let nes := rv.2
    let nes := { nes with cpu := { nes.cpu with a := (nes.cpu.a ||| rv.1) % 256 } }
    let nes := { nes with cpu := cpu_set_zn nes.cpu nes.cpu.a }
    { nes with cpu := { nes.cpu with cycles := nes.cpu.cycles + 3 } }
  | 0x06 =>
    let m := addr_zero_page nes
    let nes := m.2
    let rv := cpu_read nes m.1.addr
    let nes := rv.2
    let value := rv.1 % 256
    let nes := { nes with cpu := { nes.cpu with p := ((nes.cpu.p &&& 0xFE) ||| ((value >>> 7) &&& FLAG_CARRY)) % 256 } }
    let value := (value <<< 1) % 256
    let nes := cpu_write nes m.1.addr value
    let nes := { nes with cpu := cpu_set_zn nes.cpu value }
    { nes with cpu := { nes.cpu with cycles := nes.cpu.cycles + 5 } }
  | 0x08 =>
    let nes := cpu_push nes (nes.cpu.p ||| FLAG_BREAK ||| FLAG_UNUSED)
    { nes with cpu := { nes.cpu with cycles := nes.cpu.cycles + 3 } }
  | 0x09 =>
    let m := addr_immediate nes.cpu
    let nes := { nes with cpu := m.2 }
    let rv := cpu_read nes m.1.addr
    let nes := rv.2
    let nes := { nes with cpu := { nes.cpu with a := (nes.cpu.a ||| rv.1) % 256 } }
    let nes := { nes with cpu := cpu_set_zn nes.cpu nes.cpu.a }
    { nes with cpu := { nes.cpu with cycles := nes.cpu.cycles + 2 } }
  | 0x0A =>
    let nes := { nes with cpu := { nes.cpu with p := ((nes.cpu.p &&& 0xFE) ||| ((nes.cpu.a >>> 7) &&& FLAG_CARRY)) % 256 } }
    let nes := { nes with cpu := { nes.cpu with a := (nes.cpu.a <<< 1) % 256 } }
    let nes := { nes with cpu := cpu_set_zn nes.cpu nes.cpu.a }
    { nes with cpu := { nes.cpu with cycles := nes.cpu.cycles + 2 } }
  | 0x0D =>
    let m := addr_absolute nes
    let nes := m.2
    let rv := cpu_read nes m.1.addr
    let nes := rv.2
    let nes := { nes with cpu := { nes.cpu with a := (nes.cpu.a ||| rv.1) % 256 } }
    let nes := { nes with cpu := cpu_set_zn nes.cpu nes.cpu.a }
    { nes with cpu := { nes.cpu with cycles := nes.cpu.cycles + 4 } }
  | 0x0E =>
    let m := addr_absolute nes
    let nes := m.2
    let rv := cpu_read nes m.1.addr
    let nes := rv.2
    let value := rv.1 % 256
    let nes := { nes with cpu := { nes.cpu with p := ((nes.cpu.p &&& 0xFE) ||| ((value >>> 7) &&& FLAG_CARRY)) % 256 } }
    let value := (value <<< 1) % 256
    let nes := cpu_write nes m.1.addr value
    let nes := { nes with cpu := cpu_set_zn nes.cpu value }
    { nes with cpu := { nes.cpu with cycles := nes.cpu.cycles + 6 } }
  | 0x10 =>
    let nes := cpu_branch nes (decide (nes.cpu.p &&& FLAG_NEGATIVE = 0))
    { nes with cpu := { nes.cpu with cycles := nes.cpu.cycles + 2 } }
  | 0x11 =>
    let m := addr_indirect_indexed nes
    let nes := m.2
    let rv := cpu_read nes m.1.addr
    let nes := rv.2
    let nes := { nes with cpu := { nes.cpu with a := (nes.cpu.a ||| rv.1) % 256 } }
    let nes := { nes with cpu := cpu_set_zn nes.cpu nes.cpu.a }
    { nes with cpu := { nes.cpu with cycles := nes.cpu.cycles + 5 + (if m.1.page_crossed then 1 else 0) } }
  | 0x15 =>
    let m := addr_zero_page_x nes
    let nes := m.2
    let rv := cpu_read nes m.1.addr
    let nes := rv.2
    let nes := { nes with cpu := { nes.cpu with a := (nes.cpu.a ||| rv.1) % 256 } }
    let nes := { nes with cpu := cpu_set_zn nes.cpu nes.cpu.a }
    { nes with cpu := { nes.cpu with cycles := nes.cpu.cycles + 4 } }
  | 0x16 =>
    let m := addr_zero_page_x nes
    let nes := m.2
    let rv := cpu_read nes m.1.addr
    let nes := rv.2
    let value := rv.1 % 256
    let nes := { nes with cpu := { nes.cpu with p := ((nes.cpu.p &&& 0xFE) ||| ((value >>> 7) &&& FLAG_CARRY)) % 256 } }
    let value := (value <<< 1) % 256
    let nes := cpu_write nes m.1.addr value
    let nes := { nes with cpu := cpu_set_zn nes.cpu value }
    { nes with cpu := { nes.cpu with cycles := nes.cpu.cycles + 6 } }
  | 0x18 =>
    let nes := { nes with cpu := { nes.cpu with p := nes.cpu.p &&& 0xFE } }
    { nes with cpu := { nes.cpu with cycles := nes.cpu.cycles + 2 } }
  | 0x19 =>
    let m := addr_absolute_y nes
    let nes := m.2
    let rv := cpu_read nes m.1.addr
    let nes := rv.2
    let nes := { nes with cpu := { nes.cpu with a := (nes.cpu.a ||| rv.1) % 256 } }
    let nes := { nes with cpu := cpu_set_zn nes.cpu nes.cpu.a }
    { nes with cpu := { nes.cpu with cycles := nes.cpu.cycles + 4 + (if m.1.page_crossed then 1 else 0) } }
  | 0x1D =>
    let m := addr_absolute_x nes
    let nes := m.2
    let rv := cpu_read nes m.1.addr
    let nes := rv.2
    let nes := { nes with cpu := { nes.cpu with a := (nes.cpu.a ||| rv.1) % 256 } }
    let nes := { nes with cpu := cpu_set_zn nes.cpu nes.cpu.a }
    { nes with cpu := { nes.cpu with cycles := nes.cpu.cycles + 4 + (if m.1.page_crossed then 1 else 0) } }
  | 0x1E =>
    let m := addr_absolute_x nes
    let nes := m.2
    let rv := cpu_read nes m.1.addr
    let nes := rv.2
    let value := rv.1 % 256
    let nes := { nes with cpu := { nes.cpu with p := ((nes.cpu.p &&& 0xFE) ||| ((value >>> 7) &&& FLAG_CARRY)) % 256 } }
    let value := (value <<< 1) % 256
    let nes := cpu_write nes m.1.addr value
    let nes := { nes with cpu := cpu_set_zn nes.cpu value }
    { nes with cpu := { nes.cpu with cycles := nes.cpu.cycles + 7 } }
  | 0x20 =>
    let m := addr_absolute nes
    let nes := m.2
    let nes := cpu_push nes (((nes.cpu.pc + 65535) % 65536) >>> 8)
    let nes := cpu_push nes ((nes.cpu.pc + 65535) % 65536)
    { nes with cpu := { nes.cpu with pc := m.1.addr, cycles := nes.cpu.cycles + 6 } }
  | 0x21 =>
    let m := addr_indexed_indirect nes
    let nes := m.2
    let rv := cpu_read nes m.1.addr
    let nes := rv.2
    let nes := { nes with cpu := { nes.cpu with a := (nes.cpu.a &&& rv.1) % 256 } }
    let nes := { nes with cpu := cpu_set_zn nes.cpu nes.cpu.a }
    { nes with cpu := { nes.cpu with cycles := nes.cpu.cycles + 6 } }
  | 0x24 =>
    let m := addr_zero_page nes
    let nes := m.2
    let rv := cpu_read nes m.1.addr
    let nes := rv.2
    let value := rv.1 % 256
    let nes := { nes with cpu := { nes.cpu with p := ((nes.cpu.p &&& 0x3D) ||| (value &&& FLAG_NEGATIVE) ||| (if value &&& 0x40 ≠ 0 then FLAG_OVERFLOW else 0)) % 256 } }
    let nes := if (nes.cpu.a &&& value) % 256 = 0 then { nes with cpu := { nes.cpu with p := (nes.cpu.p ||| FLAG_ZERO) % 256 } } else nes
    { nes with cpu := { nes.cpu with cycles := nes.cpu.cycles + 3 } }
  | 0x25 =>
    let m := addr_zero_page nes
    let nes := m.2
    let rv := cpu_read nes m.1.addr
    let nes := rv.2
    let nes := { nes with cpu := { nes.cpu with a := (nes.cpu.a &&& rv.1) % 256 } }
    let nes := { nes with cpu := cpu_set_zn nes.cpu nes.cpu.a }
    { nes with cpu := { nes.cpu with cycles := nes.cpu.cycles + 3 } }
  | 0x26 =>
    let m := addr_zero_page nes
    let nes := m.2
    let rv := cpu_read nes m.1.addr
    let nes := rv.2
    let value := rv.1 % 256
    let carry := if nes.cpu.p &&& FLAG_CARRY ≠ 0 then 1 else 0
    let nes := { nes with cpu := { nes.cpu with p := ((nes.cpu.p &&& 0xFE) ||| ((value >>> 7) &&& FLAG_CARRY)) % 256 } }
    let value := ((value <<< 1) ||| carry) % 256
    let nes := cpu_write nes m.1.addr value
    let nes := { nes with cpu := cpu_set_zn nes.cpu value }
    { nes with cpu := { nes.cpu with cycles := nes.cpu.cycles + 5 } }
  | 0x28 =>
    let rp := cpu_pop nes
    let nes := { rp.2 with cpu := { rp.2.cpu with p := rp.1 % 256 } }
    let nes := { nes with cpu := { nes.cpu with p := (nes.cpu.p ||| FLAG_UNUSED) % 256 } }
    { nes with cpu := { nes.cpu with cycles := nes.cpu.cycles + 4 } }
  | 0x29 =>
    let m := addr_immediate nes.cpu
    let nes := { nes with cpu := m.2 }
    let rv := cpu_read nes m.1.addr
    let nes := rv.2
    let nes := { nes with cpu := { nes.cpu with a := (nes.cpu.a &&& rv.1) % 256 } }
    let nes := { nes with cpu := cpu_set_zn nes.cpu nes.cpu.a }
    { nes with cpu := { nes.cpu with cycles := nes.cpu.cycles + 2 } }
  | 0x2A =>
    let carry := if nes.cpu.p &&& FLAG_CARRY ≠ 0 then 1 else 0
    let nes := { nes with cpu := { nes.cpu with p := ((nes.cpu.p &&& 0xFE) ||| ((nes.cpu.a >>> 7) &&& FLAG_CARRY)) % 256 } }
    let nes := { nes with cpu := { nes.cpu with a := ((nes.cpu.a <<< 1) ||| carry) % 256 } }
    let nes := { nes with cpu := cpu_set_zn nes.cpu nes.cpu.a }
    { nes with cpu := { nes.cpu with cycles := nes.cpu.cycles + 2 } }
  | 0x2C =>
    let m := addr_absolute nes
    let nes := m.2
    let rv := cpu_read nes m.1.addr
    let nes := rv.2
    let value := rv.1 % 256
    let nes := { nes with cpu := { nes.cpu with p := ((nes.cpu.p &&& 0x3D) ||| (value &&& FLAG_NEGATIVE) ||| (if value &&& 0x40 ≠ 0 then FLAG_OVERFLOW else 0)) % 256 } }
    let nes := if (nes.cpu.a &&& value) % 256 = 0 then { nes with cpu := { nes.cpu with p := (nes.cpu.p ||| FLAG_ZERO) % 256 } } else nes
    { nes with cpu := { nes.cpu with cycles := nes.cpu.cycles + 4 } }
  | 0x2D =>
    let m := addr_absolute nes
    let nes := m.2
    let rv := cpu_read nes m.1.addr
    let nes := rv.2
    let nes := { nes with cpu := { nes.cpu with a := (nes.cpu.a &&& rv.1) % 256 } }
    let nes := { nes with cpu := cpu_set_zn nes.cpu nes.cpu.a }
    { nes with cpu := { nes.cpu with cycles := nes.cpu.cycles + 4 } }
  | 0x2E =>
    let m := addr_absolute nes
    let nes := m.2
    let rv := cpu_read nes m.1.addr
    let nes := rv.2
    let value := rv.1 % 256
    let carry := if nes.cpu.p &&& FLAG_CARRY ≠ 0 then 1 else 0
    let nes := { nes with cpu := { nes.cpu with p := ((nes.cpu.p &&& 0xFE) ||| ((value >>> 7) &&& FLAG_CARRY)) % 256 } }
    let value := ((value <<< 1) ||| carry) % 256
    let nes := cpu_write nes m.1.addr value
    let nes := { nes with cpu := cpu_set_zn nes.cpu value }
    { nes with cpu := { nes.cpu with cycles := nes.cpu.cycles + 6 } }
  | 0x30 =>
    let nes := cpu_branch nes (decide (nes.cpu.p &&& FLAG_NEGATIVE ≠ 0))
    { nes with cpu := { nes.cpu with cycles := nes.cpu.cycles + 2 } }
  | 0x31 =>
    let m := addr_indirect_indexed nes
    let nes := m.2
    let rv := cpu_read nes m.1.addr
    let nes := rv.2
    let nes := { nes with cpu := { nes.cpu with a := (nes.cpu.a &&& rv.1) % 256 } }
    let nes := { nes with cpu := cpu_set_zn nes.cpu nes.cpu.a }
    { nes with cpu := { nes.cpu with cycles := nes.cpu.cycles + 5 + (if m.1.page_crossed then 1 else 0) } }
  | 0x35 =>
    let m := addr_zero_page_x nes
    let nes := m.2
    let rv := cpu_read nes m.1.addr
    let nes := rv.2
    let nes := { nes with cpu := { nes.cpu with a := (nes.cpu.a &&& rv.1) % 256 } }
    let nes := { nes with cpu := cpu_set_zn nes.cpu nes.cpu.a }
    { nes with cpu := { nes.cpu with cycles := nes.cpu.cycles + 4 } }
  | 0x36 =>
    let m := addr_zero_page_x nes
    let nes := m.2
    let rv := cpu_read nes m.1.addr
    let nes := rv.2
    let value := rv.1 % 256
    let carry := if nes.cpu.p &&& FLAG_CARRY ≠ 0 then 1 else 0
    let nes := { nes with cpu := { nes.cpu with p := ((nes.cpu.p &&& 0xFE) ||| ((value >>> 7) &&& FLAG_CARRY)) % 256 } }
    let value := ((value <<< 1) ||| carry) % 256
    let nes := cpu_write nes m.1.addr value
    let nes := { nes with cpu := cpu_set_zn nes.cpu value }
    { nes with cpu := { nes.cpu with cycles := nes.cpu.cycles + 6 } }
  | 0x38 =>
    let nes := { nes with cpu := { nes.cpu with p := (nes.cpu.p ||| FLAG_CARRY) % 256 } }
    { nes with cpu := { nes.cpu with cycles := nes.cpu.cycles + 2 } }
  | 0x39 =>
    let m := addr_absolute_y nes
    let nes := m.2
    let rv := cpu_read nes m.1.addr
    let nes := rv.2
    let nes := { nes with cpu := { nes.cpu with a := (nes.cpu.a &&& rv.1) % 256 } }
    let nes := { nes with cpu := cpu_set_zn nes.cpu nes.cpu.a }
    { nes with cpu := { nes.cpu with cycles := nes.cpu.cycles + 4 + (if m.1.page_crossed then 1 else 0) } }
  | 0x3D =>
    let m := addr_absolute_x nes
    let nes := m.2
    let rv := cpu_read nes m.1.addr
    let nes := rv.2
    let nes := { nes with cpu := { nes.cpu with a := (nes.cpu.a &&& rv.1) % 256 } }
    let nes := { nes with cpu := cpu_set_zn nes.cpu nes.cpu.a }
    { nes with cpu := { nes.cpu with cycles := nes.cpu.cycles + 4 + (if m.1.page_crossed then 1 else 0) } }
  | 0x3E =>
    let m := addr_absolute_x nes
    let nes := m.2
    let rv := cpu_read nes m.1.addr
    let nes := rv.2
    let value := rv.1 % 256
    let carry := if nes.cpu.p &&& FLAG_CARRY ≠ 0 then 1 else 0
    let nes := { nes with cpu := { nes.cpu with p := ((nes.cpu.p &&& 0xFE) ||| ((value >>> 7) &&& FLAG_CARRY)) % 256 } }
    let value := ((value <<< 1) ||| carry) % 256
    let nes := cpu_write nes m.1.addr value
    let nes := { nes with cpu := cpu_set_zn nes.cpu value }
    { nes with cpu := { nes.cpu with cycles := nes.cpu.cycles + 7 } }
  | 0x40 =>
    let rp := cpu_pop nes
    let nes := { rp.2 with cpu := { rp.2.cpu with p := rp.1 % 256 } }
    let rlo := cpu_pop nes
    let nes := { rlo.2 with cpu := { rlo.2.cpu with pc := rlo.1 % 65536 } }
    let rhi := cpu_pop nes
    let nes := { rhi.2 with cpu := { rhi.2.cpu with pc := (rhi.2.cpu.pc ||| (rhi.1 <<< 8)) % 65536 } }
    { nes with cpu := { nes.cpu with cycles := nes.cpu.cycles + 6 } }
  | 0x41 =>
    let m := addr_indexed_indirect nes
    let nes := m.2
    let rv := cpu_read nes m.1.addr
    let nes := rv.2
    let nes := { nes with cpu := { nes.cpu with a := (nes.cpu.a ^^^ rv.1) % 256 } }
    let nes := { nes with cpu := cpu_set_zn nes.cpu nes.cpu.a }
    { nes with cpu := { nes.cpu with cycles := nes.cpu.cycles + 6 } }
  | 0x45 =>
    let m := addr_zero_page nes
    let nes := m.2
    let rv := cpu_read nes m.1.addr
    let nes := rv.2
    let nes := { nes with cpu := { nes.cpu with a := (nes.cpu.a ^^^ rv.1) % 256 } }
    let nes := { nes with cpu := cpu_set_zn nes.cpu nes.cpu.a }
    { nes with cpu := { nes.cpu with cycles := nes.cpu.cycles + 3 } }
  | 0x46 =>
    let m := addr_zero_page nes
    let nes := m.2
    let rv := cpu_read nes m.1.addr
    let nes := rv.2
    let value := rv.1 % 256
    let nes := { nes with cpu := { nes.cpu with p := ((nes.cpu.p &&& 0xFE) ||| (value &&& 1)) % 256 } }
    let value := (value >>> 1) % 256
    let nes := cpu_write nes m.1.addr value
    let nes := { nes with cpu := cpu_set_zn nes.cpu value }
    { nes with cpu := { nes.cpu with cycles := nes.cpu.cycles + 5 } }
  | 0x48 =>
    let nes := cpu_push nes nes.cpu.a
    { nes with cpu := { nes.cpu with cycles := nes.cpu.cycles + 3 } }
  | 0x49 =>
    let m := addr_immediate nes.cpu
    let nes := { nes with cpu := m.2 }
    let rv := cpu_read nes m.1.addr
    let nes := rv.2
    let nes := { nes with cpu := { nes.cpu with a := (nes.cpu.a ^^^ rv.1) % 256 } }
    let nes := { nes with cpu := cpu_set_zn nes.cpu nes.cpu.a }
    { nes with cpu := { nes.cpu with cycles := nes.cpu.cycles + 2 } }
  | 0x4A =>
    let nes := { nes with cpu := { nes.cpu with p := ((nes.cpu.p &&& 0xFE) ||| (nes.cpu.a &&& 1)) % 256 } }
    let nes := { nes with cpu := { nes.cpu with a := (nes.cpu.a >>> 1) % 256 } }
    let nes := { nes with cpu := cpu_set_zn nes.cpu nes.cpu.a }
    { nes with cpu := { nes.cpu with cycles := nes.cpu.cycles + 2 } }
  | 0x4C =>
    let m := addr_absolute nes
    let nes := m.2
    { nes with cpu := { nes.cpu with pc := m.1.addr, cycles := nes.cpu.cycles + 3 } }
  | 0x4D =>
    let m := addr_absolute nes
    let nes := m.2
    let rv := cpu_read nes m.1.addr
    let nes := rv.2
    let nes := { nes with cpu := { nes.cpu with a := (nes.cpu.a ^^^ rv.1) % 256 } }
    let nes := { nes with cpu := cpu_set_zn nes.cpu nes.cpu.a }
    { nes with cpu := { nes.cpu with cycles := nes.cpu.cycles + 4 } }
  | 0x4E =>
    let m := addr_absolute nes
    let nes := m.2
    let rv := cpu_read nes m.1.addr
    let nes := rv.2
    let value := rv.1 % 256
    let nes := { nes with cpu := { nes.cpu with p := ((nes.cpu.p &&& 0xFE) ||| (value &&& 1)) % 256 } }
    let value := (value >>> 1) % 256
    let nes := cpu_write nes m.1.addr value
    let nes := { nes with cpu := cpu_set_zn nes.cpu value }
    { nes with cpu := { nes.cpu with cycles := nes.cpu.cycles + 6 } }
  | 0x50 =>
    let nes := cpu_branch nes (decide (nes.cpu.p &&& FLAG_OVERFLOW = 0))
    { nes with cpu := { nes.cpu with cycles := nes.cpu.cycles + 2 } }
  | 0x51 =>
    let m := addr_indirect_indexed nes
    let nes := m.2
    let rv := cpu_read nes m.1.addr
    let nes := rv.2
    let nes := { nes with cpu := { nes.cpu with a := (nes.cpu.a ^^^ rv.1) % 256 } }
    let nes := { nes with cpu := cpu_set_zn nes.cpu nes.cpu.a }
    { nes with cpu := { nes.cpu with cycles := nes.cpu.cycles + 5 + (if m.1.page_crossed then 1 else 0) } }
  | 0x55 =>
    let m := addr_zero_page_x nes
    let nes := m.2
    let rv := cpu_read nes m.1.addr
    let nes := rv.2
    let nes := { nes with cpu := { nes.cpu with a := (nes.cpu.a ^^^ rv.1) % 256 } }
    let nes := { nes with cpu := cpu_set_zn nes.cpu nes.cpu.a }
    { nes with cpu := { nes.cpu with cycles := nes.cpu.cycles + 4 } }
  | 0x56 =>
    let m := addr_zero_page_x nes
    let nes := m.2
    let rv := cpu_read nes m.1.addr
    let nes := rv.2
    let value := rv.1 % 256
    let nes := { nes with cpu := { nes.cpu with p := ((nes.cpu.p &&& 0xFE) ||| (value &&& 1)) % 256 } }
    let value := (value >>> 1) % 256
    let nes := cpu_write nes m.1.addr value
    let nes := { nes with cpu := cpu_set_zn nes.cpu value }
    { nes with cpu := { nes.cpu with cycles := nes.cpu.cycles + 6 } }
  | 0x58 =>
    let nes := { nes with cpu := { nes.cpu with p := nes.cpu.p &&& 0xFB } }
    { nes with cpu := { nes.cpu with cycles := nes.cpu.cycles + 2 } }
  | 0x59 =>
    let m := addr_absolute_y nes
    let nes := m.2
    let rv := cpu_read nes m.1.addr
    let nes := rv.2
    let nes := { nes with cpu := { nes.cpu with a := (nes.cpu.a ^^^ rv.1) % 256 } }
    let nes := { nes with cpu := cpu_set_zn nes.cpu nes.cpu.a }
    { nes with cpu := { nes.cpu with cycles := nes.cpu.cycles + 4 + (if m.1.page_crossed then 1 else 0) } }
  | 0x5D =>
    let m := addr_absolute_x nes
    let nes := m.2
    let rv := cpu_read nes m.1.addr
    let nes := rv.2
    let nes := { nes with cpu := { nes.cpu with a := (nes.cpu.a ^^^ rv.1) % 256 } }
    let nes := { nes with cpu := cpu_set_zn nes.cpu nes.cpu.a }
    { nes with cpu := { nes.cpu with cycles := nes.cpu.cycles + 4 + (if m.1.page_crossed then 1 else 0) } }
  | 0x5E =>
    let m := addr_absolute_x nes
    let nes := m.2
    let rv := cpu_read nes m.1.addr
    let nes := rv.2
    let value := rv.1 % 256
    let nes := { nes with cpu := { nes.cpu with p := ((nes.cpu.p &&& 0xFE) ||| (value &&& 1)) % 256 } }
    let value := (value >>> 1) % 256
    let nes := cpu_write nes m.1.addr value
    let nes := { nes with cpu := cpu_set_zn nes.cpu value }
    { nes with cpu := { nes.cpu with cycles := nes.cpu.cycles + 7 } }
  | 0x60 =>
    let rlo := cpu_pop nes
    let nes := { rlo.2 with cpu := { rlo.2.cpu with pc := rlo.1 % 65536 } }
    let rhi := cpu_pop nes
    let nes := { rhi.2 with cpu := { rhi.2.cpu with pc := (rhi.2.cpu.pc ||| (rhi.1 <<< 8)) % 65536 } }
    let nes := { nes with cpu := { nes.cpu with pc := (nes.cpu.pc + 1) % 65536 } }
    { nes with cpu := { nes.cpu with cycles := nes.cpu.cycles + 6 } }
  | 0x61 =>
    let m := addr_indexed_indirect nes
    let nes := m.2
    let rv := cpu_read nes m.1.addr
    let nes := rv.2
    let nes := { nes with cpu := cpu_adc nes.cpu rv.1 }
    { nes with cpu := { nes.cpu with cycles := nes.cpu.cycles + 6 } }
  | 0x65 =>
    let m := addr_zero_page nes
    let nes := m.2
    let rv := cpu_read nes m.1.addr
    let nes := rv.2
    let nes := { nes with cpu := cpu_adc nes.cpu rv.1 }
    { nes with cpu := { nes.cpu with cycles := nes.cpu.cycles + 3 } }
  | 0x66 =>
    let m := addr_zero_page nes
    let nes := m.2
    let rv := cpu_read nes m.1.addr
    let nes := rv.2
    let value := rv.1 % 256
    let carry := if nes.cpu.p &&& FLAG_CARRY ≠ 0 then 0x80 else 0
    let nes := { nes with cpu := { nes.cpu with p := ((nes.cpu.p &&& 0xFE) ||| (value &&& 1)) % 256 } }
    let value := ((value >>> 1) ||| carry) % 256
    let nes := cpu_write nes m.1.addr value
    let nes := { nes with cpu := cpu_set_zn nes.cpu value }
    { nes with cpu := { nes.cpu with cycles := nes.cpu.cycles + 5 } }
  | 0x68 =>
    let rp := cpu_pop nes
    let nes := { rp.2 with cpu := { rp.2.cpu with a := rp.1 % 256 } }
    let nes := { nes with cpu := cpu_set_zn nes.cpu nes.cpu.a }
    { nes with cpu := { nes.cpu with cycles := nes.cpu.cycles + 4 } }
  | 0x69 =>
    let m := addr_immediate nes.cpu
    let nes := { nes with cpu := m.2 }
    let rv := cpu_read nes m.1.addr
    let nes := rv.2
    let nes := { nes with cpu := cpu_adc nes.cpu rv.1 }
    { nes with cpu := { nes.cpu with cycles := nes.cpu.cycles + 2 } }
  | 0x6A =>
    let carry := if nes.cpu.p &&& FLAG_CARRY ≠ 0 then 0x80 else 0
    let nes := { nes with cpu := { nes.cpu with p := ((nes.cpu.p &&& 0xFE) ||| (nes.cpu.a &&& 1)) % 256 } }
    let nes := { nes with cpu := { nes.cpu with a := ((nes.cpu.a >>> 1) ||| carry) % 256 } }
    let nes := { nes with cpu := cpu_set_zn nes.cpu nes.cpu.a }
    { nes with cpu := { nes.cpu with cycles := nes.cpu.cycles + 2 } }
  | 0x6C =>
    let m := addr_indirect nes
    let nes := m.2
    { nes with cpu := { nes.cpu with pc := m.1.addr, cycles := nes.cpu.cycles + 5 } }
  | 0x6D =>
    let m := addr_absolute nes
    let nes := m.2
    let rv := cpu_read nes m.1.addr
    let nes := rv.2
    let nes := { nes with cpu := cpu_adc nes.cpu rv.1 }
    { nes with cpu := { nes.cpu with cycles := nes.cpu.cycles + 4 } }
  | 0x6E =>
    let m := addr_absolute nes
    let nes := m.2
    let rv := cpu_read nes m.1.addr
    let nes := rv.2
    let value := rv.1 % 256
    let carry := if nes.cpu.p &&& FLAG_CARRY ≠ 0 then 0x80 else 0
    let nes := { nes with cpu := { nes.cpu with p := ((nes.cpu.p &&& 0xFE) ||| (value &&& 1)) % 256 } }
    let value := ((value >>> 1) ||| carry) % 256
    let nes := cpu_write nes m.1.addr value
    let nes := { nes with cpu := cpu_set_zn nes.cpu value }
    { nes with cpu := { nes.cpu with cycles := nes.cpu.cycles + 6 } }
  | 0x70 =>
    let nes := cpu_branch nes (decide (nes.cpu.p &&& FLAG_OVERFLOW ≠ 0))
    { nes with cpu := { nes.cpu with cycles := nes.cpu.cycles + 2 } }
  | 0x71 =>
    let m := addr_indirect_indexed nes
    let nes := m.2
    let rv := cpu_read nes m.1.addr
    let nes := rv.2
    let nes := { nes with cpu := cpu_adc nes.cpu rv.1 }
    { nes with cpu := { nes.cpu with cycles := nes.cpu.cycles + 5 + (if m.1.page_crossed then 1 else 0) } }
  | 0x75 =>
    let m := addr_zero_page_x nes
    let nes := m.2
    let rv := cpu_read nes m.1.addr
    let nes := rv.2
    let nes := { nes with cpu := cpu_adc nes.cpu rv.1 }
    { nes with cpu := { nes.cpu with cycles := nes.cpu.cycles + 4 } }
  | 0x76 =>
    let m := addr_zero_page_x nes
    let nes := m.2
    let rv := cpu_read nes m.1.addr
    let nes := rv.2
    let value := rv.1 % 256
    let carry := if nes.cpu.p &&& FLAG_CARRY ≠ 0 then 0x80 else 0
    let nes := { nes with cpu := { nes.cpu with p := ((nes.cpu.p &&& 0xFE) ||| (value &&& 1)) % 256 } }
    let value := ((value >>> 1) ||| carry) % 256
    let nes := cpu_write nes m.1.addr value
    let nes := { nes with cpu := cpu_set_zn nes.cpu value }
    { nes with cpu := { nes.cpu with cycles := nes.cpu.cycles + 6 } }
  | 0x78 =>
    let nes := { nes with cpu := { nes.cpu with p := (nes.cpu.p ||| FLAG_INTERRUPT) % 256 } }
    { nes with cpu := { nes.cpu with cycles := nes.cpu.cycles + 2 } }
  | 0x79 =>
    let m := addr_absolute_y nes
    let nes := m.2
    let rv := cpu_read nes m.1.addr
    let nes := rv.2
    let nes := { nes with cpu := cpu_adc nes.cpu rv.1 }
    { nes with cpu := { nes.cpu with cycles := nes.cpu.cycles + 4 + (if m.1.page_crossed then 1 else 0) } }
  | 0x7D =>
    let m := addr_absolute_x nes
    let nes := m.2
    let rv := cpu_read nes m.1.addr
    let nes := rv.2
    let nes := { nes with cpu := cpu_adc nes.cpu rv.1 }
    { nes with cpu := { nes.cpu with cycles := nes.cpu.cycles + 4 + (if m.1.page_crossed then 1 else 0) } }
  | 0x7E =>
    let m := addr_absolute_x nes
    let nes := m.2
    let rv := cpu_read nes m.1.addr
    let nes := rv.2
    let value := rv.1 % 256
    let carry := if nes.cpu.p &&& FLAG_CARRY ≠ 0 then 0x80 else 0
    let nes := { nes with cpu := { nes.cpu with p := ((nes.cpu.p &&& 0xFE) ||| (value &&& 1)) % 256 } }
    let value := ((value >>> 1) ||| carry) % 256
    let nes := cpu_write nes m.1.addr value
    let nes := { nes with cpu := cpu_set_zn nes.cpu value }
    { nes with cpu := { nes.cpu with cycles := nes.cpu.cycles + 7 } }
  | 0x81 =>
    let m := addr_indexed_indirect nes
    let nes := m.2
    let nes := cpu_write nes m.1.addr nes.cpu.a
    { nes with cpu := { nes.cpu with cycles := nes.cpu.cycles + 6 } }
  | 0x84 =>
    let m := addr_zero_page nes
    let nes := m.2
    let nes := cpu_write nes m.1.addr nes.cpu.y
    { nes with cpu := { nes.cpu with cycles := nes.cpu.cycles + 3 } }
  | 0x85 =>
    let m := addr_zero_page nes
    let nes := m.2
    let nes := cpu_write nes m.1.addr nes.cpu.a
    { nes with cpu := { nes.cpu with cycles := nes.cpu.cycles + 3 } }
  | 0x86 =>
    let m := addr_zero_page nes
    let nes := m.2
    let nes := cpu_write nes m.1.addr nes.cpu.x
    { nes with cpu := { nes.cpu with cycles := nes.cpu.cycles + 3 } }
  | 0x88 =>
    let nes := { nes with cpu := { nes.cpu with y := (nes.cpu.y + 255) % 256 } }
    let nes := { nes with cpu := cpu_set_zn nes.cpu nes.cpu.y }
    { nes with cpu := { nes.cpu with cycles := nes.cpu.cycles + 2 } }
  | 0x8A =>
    let nes := { nes with cpu := { nes.cpu with a := nes.cpu.x } }
    let nes := { nes with cpu := cpu_set_zn nes.cpu nes.cpu.a }
    { nes with cpu := { nes.cpu with cycles := nes.cpu.cycles + 2 } }
  | 0x8C =>
    let m := addr_absolute nes
    let nes := m.2
    let nes := cpu_write nes m.1.addr nes.cpu.y
    { nes with cpu := { nes.cpu with cycles := nes.cpu.cycles + 4 } }
  | 0x8D =>
    let m := addr_absolute nes
    let nes := m.2
    let nes := cpu_write nes m.1.addr nes.cpu.a
    { nes with cpu := { nes.cpu with cycles := nes.cpu.cycles + 4 } }
  | 0x8E =>
    let m := addr_absolute nes
    let nes := m.2
    let nes := cpu_write nes m.1.addr nes.cpu.x
    { nes with cpu := { nes.cpu with cycles := nes.cpu.cycles + 4 } }
  | 0x90 =>
    let nes := cpu_branch nes (decide (nes.cpu.p &&& FLAG_CARRY = 0))
    { nes with cpu := { nes.cpu with cycles := nes.cpu.cycles + 2 } }
  | 0x91 =>
    let m := addr_indirect_indexed nes
    let nes := m.2
    let nes := cpu_write nes m.1.addr nes.cpu.a
    { nes with cpu := { nes.cpu with cycles := nes.cpu.cycles + 6 } }
  | 0x94 =>
    let m := addr_zero_page_x nes
    let nes := m.2
    let nes := cpu_write nes m.1.addr nes.cpu.y
    { nes with cpu := { nes.cpu with cycles := nes.cpu.cycles + 4 } }
  | 0x95 =>
    let m := addr_zero_page_x nes
    let nes := m.2
    let nes := cpu_write nes m.1.addr nes.cpu.a
    { nes with cpu := { nes.cpu with cycles := nes.cpu.cycles + 4 } }
  | 0x96 =>
    let m := addr_zero_page_y nes
    let nes := m.2
    let nes := cpu_write nes m.1.addr nes.cpu.x
    { nes with cpu := { nes.cpu with cycles := nes.cpu.cycles + 4 } }
  | 0x98 =>
    let nes := { nes with cpu := { nes.cpu with a := nes.cpu.y } }
    let nes := { nes with cpu := cpu_set_zn nes.cpu nes.cpu.a }
    { nes with cpu := { nes.cpu with cycles := nes.cpu.cycles + 2 } }
  | 0x99 =>
    let m := addr_absolute_y nes
    let nes := m.2
    let nes := cpu_write nes m.1.addr nes.cpu.a
    { nes with cpu := { nes.cpu with cycles := nes.cpu.cycles + 5 } }
  | 0x9A =>
    let nes := { nes with cpu := { nes.cpu with sp := nes.cpu.x } }
    { nes with cpu := { nes.cpu with cycles := nes.cpu.cycles + 2 } }
  | 0x9D =>
    let m := addr_absolute_x nes
    let nes := m.2
    let nes := cpu_write nes m.1.addr nes.cpu.a
    { nes with cpu := { nes.cpu with cycles := nes.cpu.cycles + 5 } }
  | 0xA0 =>
    let m := addr_immediate nes.cpu
    let nes := { nes with cpu := m.2 }
    let rv := cpu_read nes m.1.addr
    let nes := rv.2
    let nes := { nes with cpu := { nes.cpu with y := rv.1 % 256 } }
    let nes := { nes with cpu := cpu_set_zn nes.cpu nes.cpu.y }
    { nes with cpu := { nes.cpu with cycles := nes.cpu.cycles + 2 } }
  | 0xA1 =>
    let m := addr_indexed_indirect nes
    let nes := m.2
    let rv := cpu_read nes m.1.addr
    let nes := rv.2
    let nes := { nes with cpu := { nes.cpu with a := rv.1 % 256 } }
    let nes := { nes with cpu := cpu_set_zn nes.cpu nes.cpu.a }
    { nes with cpu := { nes.cpu with cycles := nes.cpu.cycles + 6 } }
  | 0xA2 =>
    let m := addr_immediate nes.cpu
    let nes := { nes with cpu := m.2 }
    let rv := cpu_read nes m.1.addr
    let nes := rv.2
    let nes := { nes with cpu := { nes.cpu with x := rv.1 % 256 } }
    let nes := { nes with cpu := cpu_set_zn nes.cpu nes.cpu.x }
    { nes with cpu := { nes.cpu with cycles := nes.cpu.cycles + 2 } }
  | 0xA4 =>
    let m := addr_zero_page nes
    let nes := m.2
    let rv := cpu_read nes m.1.addr
    let nes := rv.2
    let nes := { nes with cpu := { nes.cpu with y := rv.1 % 256 } }
    let nes := { nes with cpu := cpu_set_zn nes.cpu nes.cpu.y }
    { nes with cpu := { nes.cpu with cycles := nes.cpu.cycles + 3 } }
  | 0xA5 =>
    let m := addr_zero_page nes
    let nes := m.2
    let rv := cpu_read nes m.1.addr
    let nes := rv.2
    let nes := { nes with cpu := { nes.cpu with a := rv.1 % 256 } }
    let nes := { nes with cpu := cpu_set_zn nes.cpu nes.cpu.a }
    { nes with cpu := { nes.cpu with cycles := nes.cpu.cycles + 3 } }
  | 0xA6 =>
    let m := addr_zero_page nes
    let nes := m.2
    let rv := cpu_read nes m.1.addr
    let nes := rv.2
    let nes := { nes with cpu := { nes.cpu with x := rv.1 % 256 } }
    let nes := { nes with cpu := cpu_set_zn nes.cpu nes.cpu.x }
    { nes with cpu := { nes.cpu with cycles := nes.cpu.cycles + 3 } }
  | 0xA8 =>
    let nes := { nes with cpu := { nes.cpu with y := nes.cpu.a } }
    let nes := { nes with cpu := cpu_set_zn nes.cpu nes.cpu.y }
    { nes with cpu := { nes.cpu with cycles := nes.cpu.cycles + 2 } }
  | 0xA9 =>
    let m := addr_immediate nes.cpu
    let nes := { nes with cpu := m.2 }
    let rv := cpu_read nes m.1.addr
    let nes := rv.2
    let nes := { nes with cpu := { nes.cpu with a := rv.1 % 256 } }
    let nes := { nes with cpu := cpu_set_zn nes.cpu nes.cpu.a }
    { nes with cpu := { nes.cpu with cycles := nes.cpu.cycles + 2 } }
  | 0xAA =>
    let nes := { nes with cpu := { nes.cpu with x := nes.cpu.a } }
    let nes := { nes with cpu := cpu_set_zn nes.cpu nes.cpu.x }
    { nes with cpu := { nes.cpu with cycles := nes.cpu.cycles + 2 } }
  | 0xAC =>
    let m := addr_absolute nes
    let nes := m.2
    let rv := cpu_read nes m.1.addr
    let nes := rv.2
    let nes := { nes with cpu := { nes.cpu with y := rv.1 % 256 } }
    let nes := { nes with cpu := cpu_set_zn nes.cpu nes.cpu.y }
    { nes with cpu := { nes.cpu with cycles := nes.cpu.cycles + 4 } }
  | 0xAD =>
    let m := addr_absolute nes
    let nes := m.2
    let rv := cpu_read nes m.1.addr
    let nes := rv.2
    let nes := { nes with cpu := { nes.cpu with a := rv.1 % 256 } }
    let nes := { nes with cpu := cpu_set_zn nes.cpu nes.cpu.a }
    { nes with cpu := { nes.cpu with cycles := nes.cpu.cycles + 4 } }
  | 0xAE =>
    let m := addr_absolute nes
    let nes := m.2
    let rv := cpu_read nes m.1.addr
    let nes := rv.2
    let nes := { nes with cpu := { nes.cpu with x := rv.1 % 256 } }
    let nes := { nes with cpu := cpu_set_zn nes.cpu nes.cpu.x }
    { nes with cpu := { nes.cpu with cycles := nes.cpu.cycles + 4 } }
  | 0xB0 =>
    let nes := cpu_branch nes (decide (nes.cpu.p &&& FLAG_CARRY ≠ 0))
    { nes with cpu := { nes.cpu with cycles := nes.cpu.cycles + 2 } }
  | 0xB1 =>
    let m := addr_indirect_indexed nes
    let nes := m.2
    let rv := cpu_read nes m.1.addr
    let nes := rv.2
    let nes := { nes with cpu := { nes.cpu with a := rv.1 % 256 } }
    let nes := { nes with cpu := cpu_set_zn nes.cpu nes.cpu.a }
    { nes with cpu := { nes.cpu with cycles := nes.cpu.cycles + 5 + (if m.1.page_crossed then 1 else 0) } }
  | 0xB4 =>
    let m := addr_zero_page_x nes
    let nes := m.2
    let rv := cpu_read nes m.1.addr
    let nes := rv.2
    let nes := { nes with cpu := { nes.cpu with y := rv.1 % 256 } }
    let nes := { nes with cpu := cpu_set_zn nes.cpu nes.cpu.y }
    { nes with cpu := { nes.cpu with cycles := nes.cpu.cycles + 4 } }
  | 0xB5 =>
    let m := addr_zero_page_x nes
    let nes := m.2
    let rv := cpu_read nes m.1.addr
    let nes := rv.2
    let nes := { nes with cpu := { nes.cpu with a := rv.1 % 256 } }
    let nes := { nes with cpu := cpu_set_zn nes.cpu nes.cpu.a }
    { nes with cpu := { nes.cpu with cycles := nes.cpu.cycles + 4 } }
  | 0xB6 =>
    let m := addr_zero_page_y nes
    let nes := m.2
    let rv := cpu_read nes m.1.addr
    let nes := rv.2
    let nes := { nes with cpu := { nes.cpu with x := rv.1 % 256 } }
    let nes := { nes with cpu := cpu_set_zn nes.cpu nes.cpu.x }
    { nes with cpu := { nes.cpu with cycles := nes.cpu.cycles + 4 } }
  | 0xB8 =>
    let nes := { nes with cpu := { nes.cpu with p := nes.cpu.p &&& 0xBF } }
    { nes with cpu := { nes.cpu with cycles := nes.cpu.cycles + 2 } }
  | 0xB9 =>
    let m := addr_absolute_y nes
    let nes := m.2
    let rv := cpu_read nes m.1.addr
    let nes := rv.2
    let nes := { nes with cpu := { nes.cpu with a := rv.1 % 256 } }
    let nes := { nes with cpu := cpu_set_zn nes.cpu nes.cpu.a }
    { nes with cpu := { nes.cpu with cycles := nes.cpu.cycles + 4 + (if m.1.page_crossed then 1 else 0) } }
  | 0xBA =>
    let nes := { nes with cpu := { nes.cpu with x := nes.cpu.sp } }
    let nes := { nes with cpu := cpu_set_zn nes.cpu nes.cpu.x }
    { nes with cpu := { nes.cpu with cycles := nes.cpu.cycles + 2 } }
  | 0xBC =>
    let m := addr_absolute_x nes
    let nes := m.2
    let rv := cpu_read nes m.1.addr
    let nes := rv.2
    let nes := { nes with cpu := { nes.cpu with y := rv.1 % 256 } }
    let nes := { nes with cpu := cpu_set_zn nes.cpu nes.cpu.y }
    { nes with cpu := { nes.cpu with cycles := nes.cpu.cycles + 4 + (if m.1.page_crossed then 1 else 0) } }
  | 0xBD =>
    let m := addr_absolute_x nes
    let nes := m.2
    let rv := cpu_read nes m.1.addr
    let nes := rv.2
    let nes := { nes with cpu := { nes.cpu with a := rv.1 % 256 } }
    let nes := { nes with cpu := cpu_set_zn nes.cpu nes.cpu.a }
    { nes with cpu := { nes.cpu with cycles := nes.cpu.cycles + 4 + (if m.1.page_crossed then 1 else 0) } }
  | 0xBE =>
    let m := addr_absolute_y nes
    let nes := m.2
    let rv := cpu_read nes m.1.addr
    let nes := rv.2
    let nes := { nes with cpu := { nes.cpu with x := rv.1 % 256 } }
    let nes := { nes with cpu := cpu_set_zn nes.cpu nes.cpu.x }
    { nes with cpu := { nes.cpu with cycles := nes.cpu.cycles + 4 + (if m.1.page_crossed then 1 else 0) } }
  | 0xC0 =>
    let m := addr_immediate nes.cpu
    let nes := { nes with cpu := m.2 }
    let rv := cpu_read nes m.1.addr
    let nes := rv.2
    let nes := { nes with cpu := cpu_compare nes.cpu nes.cpu.y rv.1 }
    { nes with cpu := { nes.cpu with cycles := nes.cpu.cycles + 2 } }
  | 0xC1 =>
    let m := addr_indexed_indirect nes
    let nes := m.2
    let rv := cpu_read nes m.1.addr
    let nes := rv.2
    let nes := { nes with cpu := cpu_compare nes.cpu nes.cpu.a rv.1 }
    { nes with cpu := { nes.cpu with cycles := nes.cpu.cycles + 6 } }
  | 0xC4 =>
    let m := addr_zero_page nes
    let nes := m.2
    let rv := cpu_read nes m.1.addr
    let nes := rv.2
    let nes := { nes with cpu := cpu_compare nes.cpu nes.cpu.y rv.1 }
    { nes with cpu := { nes.cpu with cycles := nes.cpu.cycles + 3 } }
  | 0xC5 =>
    let m := addr_zero_page nes
    let nes := m.2
    let rv := cpu_read nes m.1.addr
    let nes := rv.2
    let nes := { nes with cpu := cpu_compare nes.cpu nes.cpu.a rv.1 }
    { nes with cpu := { nes.cpu with cycles := nes.cpu.cycles + 3 } }
  | 0xC6 =>
    let m := addr_zero_page nes
    let nes := m.2
    let rv := cpu_read nes m.1.addr
    let nes := rv.2
    let value := (rv.1 + 255) % 256
    let nes := cpu_write nes m.1.addr value
    let nes := { nes with cpu := cpu_set_zn nes.cpu value }
    { nes with cpu := { nes.cpu with cycles := nes.cpu.cycles + 5 } }
  | 0xC8 =>
    let nes := { nes with cpu := { nes.cpu with y := (nes.cpu.y + 1) % 256 } }
    let nes := { nes with cpu := cpu_set_zn nes.cpu nes.cpu.y }
    { nes with cpu := { nes.cpu with cycles := nes.cpu.cycles + 2 } }
  | 0xC9 =>
    let m := addr_immediate nes.cpu
    let nes := { nes with cpu := m.2 }
    let rv := cpu_read nes m.1.addr
    let nes := rv.2
    let nes := { nes with cpu := cpu_compare nes.cpu nes.cpu.a rv.1 }
    { nes with cpu := { nes.cpu with cycles := nes.cpu.cycles + 2 } }
  | 0xCA =>
    let nes := { nes with cpu := { nes.cpu with x := (nes.cpu.x + 255) % 256 } }
    let nes := { nes with cpu := cpu_set_zn nes.cpu nes.cpu.x }
    { nes with cpu := { nes.cpu with cycles := nes.cpu.cycles + 2 } }
  | 0xCC =>
    let m := addr_absolute nes
    let nes := m.2
    let rv := cpu_read nes m.1.addr
    let nes := rv.2
    let nes := { nes with cpu := cpu_compare nes.cpu nes.cpu.y rv.1 }
    { nes with cpu := { nes.cpu with cycles := nes.cpu.cycles + 4 } }
  | 0xCD =>
    let m := addr_absolute nes
    let nes := m.2
    let rv := cpu_read nes m.1.addr
    let nes := rv.2
    let nes := { nes with cpu := cpu_compare nes.cpu nes.cpu.a rv.1 }
    { nes with cpu := { nes.cpu with cycles := nes.cpu.cycles + 4 } }
  | 0xCE =>
    let m := addr_absolute nes
    let nes := m.2
    let rv := cpu_read nes m.1.addr
    let nes := rv.2
    let value := (rv.1 + 255) % 256
    let nes := cpu_write nes m.1.addr value
    let nes := { nes with cpu := cpu_set_zn nes.cpu value }
    { nes with cpu := { nes.cpu with cycles := nes.cpu.cycles + 6 } }
  | 0xD0 =>
    let nes := cpu_branch nes (decide (nes.cpu.p &&& FLAG_ZERO = 0))
    { nes with cpu := { nes.cpu with cycles := nes.cpu.cycles + 2 } }
  | 0xD1 =>
    let m := addr_indirect_indexed nes
    let nes := m.2
    let rv := cpu_read nes m.1.addr
    let nes := rv.2
    let nes := { nes with cpu := cpu_compare nes.cpu nes.cpu.a rv.1 }
    { nes with cpu := { nes.cpu with cycles := nes.cpu.cycles + 5 + (if m.1.page_crossed then 1 else 0) } }
  | 0xD5 =>
    let m := addr_zero_page_x nes
    let nes := m.2
    let rv := cpu_read nes m.1.addr
    let nes := rv.2
    let nes := { nes with cpu := cpu_compare nes.cpu nes.cpu.a rv.1 }
    { nes with cpu := { nes.cpu with cycles := nes.cpu.cycles + 4 } }
  | 0xD6 =>
    let m := addr_zero_page_x nes
    let nes := m.2
    let rv := cpu_read nes m.1.addr
    let nes := rv.2
    let value := (rv.1 + 255) % 256
    let nes := cpu_write nes m.1.addr value
    let nes := { nes with cpu := cpu_set_zn nes.cpu value }
    { nes with cpu := { nes.cpu with cycles := nes.cpu.cycles + 6 } }
  | 0xD8 =>
    let nes := { nes with cpu := { nes.cpu with p := nes.cpu.p &&& 0xF7 } }
    { nes with cpu := { nes.cpu with cycles := nes.cpu.cycles + 2 } }
  | 0xD9 =>
    let m := addr_absolute_y nes
    let nes := m.2
    let rv := cpu_read nes m.1.addr
    let nes := rv.2
    let nes := { nes with cpu := cpu_compare nes.cpu nes.cpu.a rv.1 }
    { nes with cpu := { nes.cpu with cycles := nes.cpu.cycles + 4 + (if m.1.page_crossed then 1 else 0) } }
  | 0xDD =>
    let m := addr_absolute_x nes
    let nes := m.2
    let rv := cpu_read nes m.1.addr
    let nes := rv.2
    let nes := { nes with cpu := cpu_compare nes.cpu nes.cpu.a rv.1 }
    { nes with cpu := { nes.cpu with cycles := nes.cpu.cycles + 4 + (if m.1.page_crossed then 1 else 0) } }
  | 0xDE =>
    let m := addr_absolute_x nes
    let nes := m.2
    let rv := cpu_read nes m.1.addr
    let nes := rv.2
    let value := (rv.1 + 255) % 256
    let nes := cpu_write nes m.1.addr value
    let nes := { nes with cpu := cpu_set_zn nes.cpu value }
    { nes with cpu := { nes.cpu with cycles := nes.cpu.cycles + 7 } }
  | 0xE0 =>
    let m := addr_immediate nes.cpu
    let nes := { nes with cpu := m.2 }
    let rv := cpu_read nes m.1.addr
    let nes := rv.2
    let nes := { nes with cpu := cpu_compare nes.cpu nes.cpu.x rv.1 }
    { nes with cpu := { nes.cpu with cycles := nes.cpu.cycles + 2 } }
  | 0xE1 =>
    let m := addr_indexed_indirect nes
    let nes := m.2
    let rv := cpu_read nes m.1.addr
    let nes := rv.2
    let nes := { nes with cpu := cpu_sbc nes.cpu rv.1 }
    { nes with cpu := { nes.cpu with cycles := nes.cpu.cycles + 6 } }
  | 0xE4 =>
    let m := addr_zero_page nes
    let nes := m.2
    let rv := cpu_read nes m.1.addr
    let nes := rv.2
    let nes := { nes with cpu := cpu_compare nes.cpu nes.cpu.x rv.1 }
    { nes with cpu := { nes.cpu with cycles := nes.cpu.cycles + 3 } }
  | 0xE5 =>
    let m := addr_zero_page nes
    let nes := m.2
    let rv := cpu_read nes m.1.addr
    let nes := rv.2
    let nes := { nes with cpu := cpu_sbc nes.cpu rv.1 }
    { nes with cpu := { nes.cpu with cycles := nes.cpu.cycles + 3 } }
  | 0xE6 =>
    let m := addr_zero_page nes
    let nes := m.2
    let rv := cpu_read nes m.1.addr
    let nes := rv.2
    let value := (rv.1 + 1) % 256
    let nes := cpu_write nes m.1.addr value
    let nes := { nes with cpu := cpu_set_zn nes.cpu value }
    { nes with cpu := { nes.cpu with cycles := nes.cpu.cycles + 5 } }
  | 0xE8 =>
    let nes := { nes with cpu := { nes.cpu with x := (nes.cpu.x + 1) % 256 } }
    let nes := { nes with cpu := cpu_set_zn nes.cpu nes.cpu.x }
    { nes with cpu := { nes.cpu with cycles := nes.cpu.cycles + 2 } }
  | 0xE9 =>
    let m := addr_immediate nes.cpu
    let nes := { nes with cpu := m.2 }
    let rv := cpu_read nes m.1.addr
    let nes := rv.2
    let nes := { nes with cpu := cpu_sbc nes.cpu rv.1 }
    { nes with cpu := { nes.cpu with cycles := nes.cpu.cycles + 2 } }
  | 0xEA =>
    { nes with cpu := { nes.cpu with cycles := nes.cpu.cycles + 2 } }
  | 0xEC =>
    let m := addr_absolute nes
    let nes := m.2
    let rv := cpu_read nes m.1.addr
    let nes := rv.2
    let nes := { nes with cpu := cpu_compare nes.cpu nes.cpu.x rv.1 }
    { nes with cpu := { nes.cpu with cycles := nes.cpu.cycles + 4 } }
  | 0xED =>
    let m := addr_absolute nes
    let nes := m.2
    let rv := cpu_read nes m.1.addr
    let nes := rv.2
    let nes := { nes with cpu := cpu_sbc nes.cpu rv.1 }
    { nes with cpu := { nes.cpu with cycles := nes.cpu.cycles + 4 } }
  | 0xEE =>
    let m := addr_absolute nes
    let nes := m.2
    let rv := cpu_read nes m.1.addr
    let nes := rv.2
    let value := (rv.1 + 1) % 256
    let nes := cpu_write nes m.1.addr value
    let nes := { nes with cpu := cpu_set_zn nes.cpu value }
    { nes with cpu := { nes.cpu with cycles := nes.cpu.cycles + 6 } }
  | 0xF0 =>
    let nes := cpu_branch nes (decide (nes.cpu.p &&& FLAG_ZERO ≠ 0))
    { nes with cpu := { nes.cpu with cycles := nes.cpu.cycles + 2 } }
  | 0xF1 =>
    let m := addr_indirect_indexed nes
    let nes := m.2
    let rv := cpu_read nes m.1.addr
    let nes := rv.2
    let nes := { nes with cpu := cpu_sbc nes.cpu rv.1 }
    { nes with cpu := { nes.cpu with cycles := nes.cpu.cycles + 5 + (if m.1.page_crossed then 1 else 0) } }
  | 0xF5 =>
    let m := addr_zero_page_x nes
    let nes := m.2
    let rv := cpu_read nes m.1.addr
    let nes := rv.2
    let nes := { nes with cpu := cpu_sbc nes.cpu rv.1 }
    { nes with cpu := { nes.cpu with cycles := nes.cpu.cycles + 4 } }
  | 0xF6 =>
    let m := addr_zero_page_x nes
    let nes := m.2
    let rv := cpu_read nes m.1.addr
    let nes := rv.2
    let value := (rv.1 + 1) % 256
    let nes := cpu_write nes m.1.addr value
    let nes := { nes with cpu := cpu_set_zn nes.cpu value }
    { nes with cpu := { nes.cpu with cycles := nes.cpu.cycles + 6 } }
  | 0xF8 =>
    let nes := { nes with cpu := { nes.cpu with p := (nes.cpu.p ||| FLAG_DECIMAL) % 256 } }
    { nes with cpu := { nes.cpu with cycles := nes.cpu.cycles + 2 } }
  | 0xF9 =>
    let m := addr_absolute_y nes
    let nes := m.2
    let rv := cpu_read nes m.1.addr
    let nes := rv.2
    let nes := { nes with cpu := cpu_sbc nes.cpu rv.1 }
    { nes with cpu := { nes.cpu with cycles := nes.cpu.cycles + 4 + (if m.1.page_crossed then 1 else 0) } }
  | 0xFD =>
    let m := addr_absolute_x nes
    let nes := m.2
    let rv := cpu_read nes m.1.addr
    let nes := rv.2
    let nes := { nes with cpu := cpu_sbc nes.cpu rv.1 }
    { nes with cpu := { nes.cpu with cycles := nes.cpu.cycles + 4 + (if m.1.page_crossed then 1 else 0) } }
  | 0xFE =>
    let m := addr_absolute_x nes
    let nes := m.2
    let rv := cpu_read nes m.1.addr
    let nes := rv.2
    let value := (rv.1 + 1) % 256
    let nes := cpu_write nes m.1.addr value
    let nes := { nes with cpu := cpu_set_zn nes.cpu value }
    { nes with cpu := { nes.cpu with cycles := nes.cpu.cycles + 7 } }
  | _ => { nes with cpu := { nes.cpu with cycles := nes.cpu.cycles + 2 } }

/-- `parse_ines` (nessy.c:1458): validate the iNES header and build the
cartridge; `none` models the C `false` return (a fatal load error in `main`).
The `memcmp` against `"NES\x1A"` is the conjunction of the four byte
comparisons.  The mapper check reads only the upper nibble of header byte 6
(nessy.c:1469); header byte 7 is never read.  The `memset` + `memcpy` pair
becomes the zero-extended window functions. -/
def parse_ines (image : RomImage) : Option Cartridge :=
  if image.rom_size < 16 then none
  else if ¬ (image.rom_data 0 = 0x4E ∧ image.rom_data 1 = 0x45 ∧
             image.rom_data 2 = 0x53 ∧ image.rom_data 3 = 0x1A) then none
  else
    let prg_banks := image.rom_data 4
    let chr_banks := image.rom_data 5
    let flags6 := image.rom_data 6
    let mapper := flags6 >>> 4
    if mapper ≠ 0 then none
    else
      let offset := if flags6 &&& 0x04 ≠ 0 then 16 + 512 else 16
      let prg_size := prg_banks * PRG_ROM_BANK_SIZE
      let chr_size := chr_banks * CHR_ROM_BANK_SIZE
      if image.rom_size < offset + prg_size + chr_size then none
      else
        some { prg_rom := fun i => if i < prg_size then image.rom_data (offset + i) else 0,
               chr_rom := fun i => if i < chr_size then image.rom_data (offset + prg_size + i) else 0,
               prg_rom_size := if prg_size ≠ 0 then prg_size else PRG_ROM_BANK_SIZE,
               chr_rom_size := chr_size }

/-- The signed (two's-complement) reading of a byte, used to state the ADC
overflow property. -/
def toSigned (n : Nat) : Int := if n < 128 then (n : Int) else (n : Int) - 256

theorem and_128_ne_zero (x : Nat) : (x &&& 128 ≠ 0) ↔ (x.testBit 7 = true) := by
  have h := Nat.and_two_pow x 7
  norm_num at h
  rw [h]
  cases hx : x.testBit 7 <;> simp

theorem testBit_mod256 (x i : Nat) :
    (x % 256).testBit i = (decide (i < 8) && x.testBit i) := by
  have := Nat.testBit_mod_two_pow x 8 i
  norm_num at this
  exact this

/-- The `cpu_adc` overflow bit formula detects exactly the signed overflows:
`~(A ⊕ M) & (A ⊕ r) & 0x80 ≠ 0` iff the mathematical signed sum leaves
`[-128, 127]`. -/
theorem adc_overflow_char (a m c : Nat) (ha : a < 256) (hm : m < 256) (hc : c < 2) :
    (((((a ^^^ m) ^^^ 255) &&& (a ^^^ ((a + m + c) % 256))) &&& 128 ≠ 0) ↔
      (toSigned a + toSigned m + (c : Int) < -128 ∨
        127 < toSigned a + toSigned m + (c : Int))) := by
  generalize hrdef : (a + m + c) % 256 = r
  have hr : r < 256 := by omega
  have h7 : ∀ x : Nat, x < 256 → (x.testBit 7 = decide (128 ≤ x)) := by decide
  rw [and_128_ne_zero]
  simp only [Nat.testBit_and, Nat.testBit_xor]
  rw [h7 a ha, h7 m hm, h7 r hr]
  have h255 : (255 : Nat).testBit 7 = true := by decide
  rw [h255]
  simp only [toSigned]
  by_cases h1 : 128 ≤ a <;> by_cases h2 : 128 ≤ m <;> by_cases h3 : 128 ≤ r <;>
    simp [h1, h2, h3] <;> split_ifs <;> omega

/-- The image used for the C3 counterexample: a valid 1×16 KiB PRG, 0 CHR
mapper-0 image except that header byte 7 is `0x10` (which in the full iNES
convention would make the mapper number 16). -/
def c3img : RomImage :=
  { rom_data := fun i =>
      if i = 0 then 0x4E else if i = 1 then 0x45 else if i = 2 then 0x53
      else if i = 3 then 0x1A else if i = 4 then 1 else if i = 7 then 0x10 else 0,
    rom_size := 16 + 16384 }

/-- C3 counterexample: an image whose byte-6 upper nibble is 0 but whose
byte 7 is nonzero (claimed mapper 16) is NOT rejected — `parse_ines`
succeeds on it. -/
theorem parse_ines_accepts_nonzero_byte7 :
    (parse_ines c3img).isSome = true ∧
    c3img.rom_data 6 >>> 4 = 0 ∧ c3img.rom_data 7 = 0x10 :=
  ⟨rfl, rfl, rfl⟩

/-- `parse_ines` gives the same answer on any two images of the same size
whose bytes agree everywhere except index 7 — byte 7 is never read. -/
theorem parse_ines_ext (img1 img2 : RomImage) (hs : img1.rom_size = img2.rom_size)
    (hd : ∀ i, i ≠ 7 → img1.rom_data i = img2.rom_data i) :
    parse_ines img1 = parse_ines img2 := by
  have e0 := hd 0 (by decide)
  have e1 := hd 1 (by decide)
  have e2 := hd 2 (by decide)
  have e3 := hd 3 (by decide)
  have e4 := hd 4 (by decide)
  have e5 := hd 5 (by decide)
  have e6 := hd 6 (by decide)
  simp only [parse_ines]
  rw [hs, e0, e1, e2, e3, e4, e5, e6]
  refine if_congr Iff.rfl rfl (if_congr Iff.rfl rfl (if_congr Iff.rfl rfl
    (if_congr Iff.rfl rfl ?_)))
  refine congrArg some ?_
  have hoff : (16 : Nat) ≤ (if img2.rom_data 6 &&& 0x04 ≠ 0 then 16 + 512 else 16) := by
    split <;> norm_num
  refine Cartridge.ext ?_ ?_ rfl rfl
  · funext i
    refine if_congr Iff.rfl (hd _ (by omega)) rfl
  · funext i
    refine if_congr Iff.rfl (hd _ (by omega)) rfl

/-- C3 amended: loading succeeds only when the upper nibble of header byte 6
is zero; header byte 7 does not participate in the check at all (changing it
never changes the result of `parse_ines`). -/
theorem parse_ines_mapper_from_byte6_only :
    (∀ image : RomImage, (parse_ines image).isSome = true → image.rom_data 6 >>> 4 = 0) ∧
    (∀ (image : RomImage) (v : Nat), parse_ines (setByte image 7 v) = parse_ines image) := by
  constructor
  · intro image h
    simp only [parse_ines] at h
    split at h
    · simp at h
    split at h
    · simp at h
    split at h
    · simp at h
    · next hm => exact not_ne_iff.mp hm
  · intro image v
    refine parse_ines_ext _ _ rfl ?_
    intro i hi
    simp [setByte, hi]

/-- C3 amended witness: the theorem applied to the concrete image `c3img`
and to rewriting its byte 7 to 0. -/
theorem parse_ines_mapper_from_byte6_only_witness :
    c3img.rom_data 6 >>> 4 = 0 ∧ parse_ines (setByte c3img 7 0) = parse_ines c3img :=
  ⟨parse_ines_mapper_from_byte6_only.1 c3img rfl,
   parse_ines_mapper_from_byte6_only.2 c3img 0⟩

/-- The image used for the C4 failing input: 3 PRG banks and 2 CHR banks,
with a body large enough to pass the size check. -/
def c4img : RomImage :=
  { rom_data := fun i =>
      if i = 0 then 0x4E else if i = 1 then 0x45 else if i = 2 then 0x53
      else if i = 3 then 0x1A else if i = 4 then 3 else if i = 5 then 2 else 0,
    rom_size := 16 + 3 * 16384 + 2 * 8192 }

/-- C4: `parse_ines` accepts a 3-PRG-bank, 2-CHR-bank image and builds a
cartridge with `prg_rom_size = 49152 ∉ {16384, 32768}` and
`chr_rom_size = 16384 ∉ {0, 8192}` (the C `memcpy` then overruns the fixed
32 KiB `prg_rom` and 8 KiB `chr_rom` buffers). -/
theorem parse_ines_accepts_oversized_banks :
    ((parse_ines c4img).map Cartridge.prg_rom_size = some 49152 ∧
      (parse_ines c4img).map Cartridge.chr_rom_size = some 16384) ∧
    ¬ ((49152 : Nat) = 16384 ∨ (49152 : Nat) = 32768) ∧
    ¬ ((16384 : Nat) = 0 ∨ (16384 : Nat) = 8192) :=
  ⟨⟨rfl, rfl⟩, by decide, by decide⟩

/-- A concrete machine state used to instantiate the register-0 write
theorem. -/
def nesC10 : NES :=
  { cpu := { a := 0, x := 0, y := 0, sp := 0xFD, p := 0x24, pc := 0, cycles := 0 },
    ppu := ppu_reset,
    cart := { prg_rom := fun _ => 0, chr_rom := fun _ => 0,
              prg_rom_size := 16384, chr_rom_size := 0 },
    ram := fun _ => 0 }

theorem testBit_f3ff (i : Nat) :
    Nat.testBit 0xF3FF i = (decide (i < 16) && !(decide (i = 10) || decide (i = 11))) := by
  rcases Nat.lt_or_ge i 16 with hi | hi
  · interval_cases i <;> decide
  · have hb : (0xF3FF : Nat) < 2 ^ i :=
      lt_of_lt_of_le (by norm_num) (Nat.pow_le_pow_right (by norm_num) hi)
    rw [Nat.testBit_lt_two_pow hb]
    have : ¬ (i < 16) := by omega
    simp [this]

theorem testBit_three (i : Nat) : Nat.testBit 3 i = decide (i < 2) := by
  rcases Nat.lt_or_ge i 2 with hi | hi
  · interval_cases i <;> decide
  · have hb : (3 : Nat) < 2 ^ i :=
      lt_of_lt_of_le (by norm_num) (Nat.pow_le_pow_right (by norm_num) hi)
    rw [Nat.testBit_lt_two_pow hb]
    have : ¬ (i < 2) := by omega
    simp [this]

/-- C10: writing PPU register 0 stores `ctrl` and, as a side effect, copies
bits 0–1 of the written value into bits 10–11 of `temp_addr`; every other
bit of `temp_addr` and the registers `vram_addr`, `fine_x`, both write
latches, `status`, `mask` and `oam_addr` are unchanged. -/
theorem ctrl_write_copies_nametable_bits (nes : NES) (addr value : Nat)
    (haddr : addr &&& 7 = 0) (ht : nes.ppu.temp_addr < 65536) :
    ∀ p', p' = (ppu_write_register nes addr value).ppu →
      p'.ctrl = value % 256 ∧
      p'.temp_addr.testBit 10 = value.testBit 0 ∧
      p'.temp_addr.testBit 11 = value.testBit 1 ∧
      (∀ i, i ≠ 10 → i ≠ 11 → p'.temp_addr.testBit i = nes.ppu.temp_addr.testBit i) ∧
      p'.vram_addr = nes.ppu.vram_addr ∧ p'.fine_x = nes.ppu.fine_x ∧
      p'.scroll_latch = nes.ppu.scroll_latch ∧ p'.addr_latch = nes.ppu.addr_latch ∧
      p'.status = nes.ppu.status ∧ p'.mask = nes.ppu.mask ∧
      p'.oam_addr = nes.ppu.oam_addr := by
  intro p' hp'
  have hand : ∀ x : Nat, x &&& 7 = x % 8 := fun x => by
    have := Nat.and_pow_two_sub_one_eq_mod x 3
    norm_num at this
    exact this
  have h0 : (addr % 65536) &&& 0x7 = 0 := by
    rw [hand]
    rw [Nat.mod_mod_of_dvd _ (by norm_num)]
    rw [← hand]
    exact haddr
  rw [hp']
  simp only [ppu_write_register, h0]
  refine ⟨by trivial, ?_, ?_, ?_, by trivial, by trivial, by trivial, by trivial,
    by trivial, by trivial, by trivial⟩
  · simp [Nat.testBit_or, Nat.testBit_and, Nat.testBit_shiftLeft, testBit_f3ff,
      testBit_three, testBit_mod256]
    omega
  · simp [Nat.testBit_or, Nat.testBit_and, Nat.testBit_shiftLeft, testBit_f3ff,
      testBit_three, testBit_mod256]
  · intro i h10 h11
    rcases Nat.lt_or_ge i 16 with hi | hi
    · interval_cases i <;>
        simp_all [Nat.testBit_or, Nat.testBit_and, Nat.testBit_shiftLeft, testBit_f3ff,
          testBit_three, testBit_mod256]
    · have hlhs : (nes.ppu.temp_addr &&& 0xF3FF) ||| ((value % 256 &&& 0x03) <<< 10)
          < 2 ^ 16 := by
        refine Nat.or_lt_two_pow ?_ ?_
        · exact lt_of_le_of_lt (Nat.and_le_right) (by norm_num)
        · rw [Nat.shiftLeft_eq]
          have : value % 256 &&& 0x03 ≤ 0x03 := Nat.and_le_right
          calc (value % 256 &&& 0x03) * 2 ^ 10 ≤ 3 * 2 ^ 10 :=
                Nat.mul_le_mul_right _ this
            _ < 2 ^ 16 := by norm_num
      rw [Nat.testBit_lt_two_pow
          (lt_of_lt_of_le hlhs (Nat.pow_le_pow_right (by norm_num) hi)),
        Nat.testBit_lt_two_pow
          (lt_of_lt_of_le (show nes.ppu.temp_addr < 2 ^ 16 from ht)
            (Nat.pow_le_pow_right (by norm_num) hi))]

/-- C10 witness: the theorem at a concrete reset-state PPU, `addr = 0x2000`,
`value = 3`. -/
theorem ctrl_write_copies_nametable_bits_witness :
    ((ppu_write_register nesC10 0x2000 3).ppu.ctrl = 3 % 256 ∧
      (ppu_write_register nesC10 0x2000 3).ppu.temp_addr.testBit 10 = (3 : Nat).testBit 0 ∧
      (ppu_write_register nesC10 0x2000 3).ppu.temp_addr.testBit 11 = (3 : Nat).testBit 1 ∧
      (∀ i, i ≠ 10 → i ≠ 11 →
        (ppu_write_register nesC10 0x2000 3).ppu.temp_addr.testBit i =
          nesC10.ppu.temp_addr.testBit i) ∧
      (ppu_write_register nesC10 0x2000 3).ppu.vram_addr = nesC10.ppu.vram_addr ∧
      (ppu_write_register nesC10 0x2000 3).ppu.fine_x = nesC10.ppu.fine_x ∧
      (ppu_write_register nesC10 0x2000 3).ppu.scroll_latch = nesC10.ppu.scroll_latch ∧
      (ppu_write_register nesC10 0x2000 3).ppu.addr_latch = nesC10.ppu.addr_latch ∧
      (ppu_write_register nesC10 0x2000 3).ppu.status = nesC10.ppu.status ∧
      (ppu_write_register nesC10 0x2000 3).ppu.mask = nesC10.ppu.mask ∧
      (ppu_write_register nesC10 0x2000 3).ppu.oam_addr = nesC10.ppu.oam_addr) :=
  ctrl_write_copies_nametable_bits nesC10 0x2000 3 (by decide) (by decide) _ rfl

/-- The CPU state of the spec's concrete ADC scenario:
`A = 0x50, P = 0x24` (carry clear). -/
def cpuC5 : CPU := { a := 0x50, x := 1, y := 2, sp := 0xFD, p := 0x24, pc := 0x8000, cycles := 7 }

/-- Proof-side helper: the four status-bit updates performed by
`cpu_adc` (carry, overflow) and `cpu_set_zn` (zero, negative), in order,
as a function of the four branch outcomes. -/
def pchain (q : Nat) (b1 b2 b3 b4 : Bool) : Nat :=
  let q1 := if b1 then (q ||| FLAG_CARRY) % 256 else q &&& 0xFE
  let q2 := if b2 then (q1 ||| FLAG_OVERFLOW) % 256 else q1 &&& 0xBF
  let q3 := if b3 then (q2 ||| FLAG_ZERO) % 256 else q2 &&& 0xFD
  if b4 then (q3 ||| FLAG_NEGATIVE) % 256 else q3 &&& 0x7F

theorem pchain_bits : ∀ q : Nat, q < 256 → ∀ b1 b2 b3 b4 : Bool,
    (pchain q b1 b2 b3 b4).testBit 0 = b1 ∧ (pchain q b1 b2 b3 b4).testBit 6 = b2 ∧
    (pchain q b1 b2 b3 b4).testBit 1 = b3 ∧ (pchain q b1 b2 b3 b4).testBit 7 = b4 := by
  decide

theorem mod256_mod256 (x : Nat) : x % 256 % 256 = x % 256 := Nat.mod_mod_of_dvd x dvd_rfl

/-- C5: ADC semantics.  With `r = A + M + C` the unbounded sum: the new
accumulator is `r mod 256`; the new carry holds iff `r > 0xFF`; the overflow
flag holds iff the signed (two's-complement) sum of `A`, `M` and the carry-in
lies outside `[-128, 127]`; `Z'` iff the new accumulator is zero; `N'` is its
bit 7; and the registers `X`, `Y`, `SP`, `PC` (and the cycle counter) are
unchanged. -/
theorem cpu_adc_spec (cpu : CPU) (value : Nat)
    (ha : cpu.a < 256) (hv : value < 256) (hp : cpu.p < 256) :
    ∀ cpu' c r, cpu' = cpu_adc cpu value →
      c = (if cpu.p &&& FLAG_CARRY ≠ 0 then 1 else 0) →
      r = cpu.a + value + c →
      cpu'.a = r % 256 ∧
      cpu'.p.testBit 0 = decide (r > 0xFF) ∧
      cpu'.p.testBit 6 = decide (toSigned cpu.a + toSigned value + (c : Int) < -128 ∨
        127 < toSigned cpu.a + toSigned value + (c : Int)) ∧
      cpu'.p.testBit 1 = decide (r % 256 = 0) ∧
      cpu'.p.testBit 7 = (r % 256).testBit 7 ∧
      cpu'.x = cpu.x ∧ cpu'.y = cpu.y ∧ cpu'.sp = cpu.sp ∧ cpu'.pc = cpu.pc ∧
      cpu'.cycles = cpu.cycles := by
  intro cpu' c r hcpu' hc hr
  have hc2 : c < 2 := by
    rw [hc]
    split <;> omega
  have hiff := adc_overflow_char cpu.a value c ha hv hc2
  have hs65 : (cpu.a + value + c) % 65536 = cpu.a + value + c :=
    Nat.mod_eq_of_lt (by omega)
  subst hcpu' hr
  have hpeq : (cpu_adc cpu value).p =
      pchain cpu.p (decide (cpu.a + value + c > 255))
        (decide ((((cpu.a ^^^ value) ^^^ 255) &&&
          (cpu.a ^^^ (cpu.a + value + c) % 256)) &&& 128 ≠ 0))
        (decide ((cpu.a + value + c) % 256 = 0))
        (decide ((cpu.a + value + c) % 256 &&& 128 ≠ 0)) := by
    simp [cpu_adc, cpu_set_zn, pchain, apply_ite CPU.p, apply_ite CPU.a, ite_self,
      Nat.mod_eq_of_lt hv, mod256_mod256, ← hc, hs65]
  have haeq : (cpu_adc cpu value).a = (cpu.a + value + c) % 256 := by
    simp [cpu_adc, cpu_set_zn, apply_ite CPU.a, ite_self, Nat.mod_eq_of_lt hv, ← hc, hs65]
  have hregs : (cpu_adc cpu value).x = cpu.x ∧ (cpu_adc cpu value).y = cpu.y ∧
      (cpu_adc cpu value).sp = cpu.sp ∧ (cpu_adc cpu value).pc = cpu.pc ∧
      (cpu_adc cpu value).cycles = cpu.cycles := by
    simp [cpu_adc, cpu_set_zn, apply_ite CPU.x, apply_ite CPU.y, apply_ite CPU.sp,
      apply_ite CPU.pc, apply_ite CPU.cycles, ite_self]
  obtain ⟨b0, b6, b1g, b7⟩ := pchain_bits cpu.p hp
    (decide (cpu.a + value + c > 255))
    (decide ((((cpu.a ^^^ value) ^^^ 255) &&&
      (cpu.a ^^^ (cpu.a + value + c) % 256)) &&& 128 ≠ 0))
    (decide ((cpu.a + value + c) % 256 = 0))
    (decide ((cpu.a + value + c) % 256 &&& 128 ≠ 0))
  refine ⟨haeq, ?_, ?_, ?_, ?_, hregs.1, hregs.2.1, hregs.2.2.1, hregs.2.2.2.1,
    hregs.2.2.2.2⟩
  · rw [hpeq, b0]
  · rw [hpeq, b6]
    exact decide_eq_decide.mpr hiff
  · rw [hpeq, b1g]
  · rw [hpeq, b7]
    have h78 := and_128_ne_zero ((cpu.a + value + c) % 256)
    simp [h78]

/-- C5 witness: the theorem at the spec's concrete scenario
`A = 0x50, M = 0x50, C = 0` (which overflows: `0x50 + 0x50 = 0xA0`). -/
theorem cpu_adc_spec_witness :
    (cpu_adc cpuC5 0x50).a = (0x50 + 0x50 + 0 : Nat) % 256 ∧
    (cpu_adc cpuC5 0x50).p.testBit 0 = decide ((0x50 + 0x50 + 0 : Nat) > 0xFF) ∧
    (cpu_adc cpuC5 0x50).p.testBit 6 =
      decide (toSigned cpuC5.a + toSigned 0x50 + ((0 : Nat) : Int) < -128 ∨
        127 < toSigned cpuC5.a + toSigned 0x50 + ((0 : Nat) : Int)) ∧
    (cpu_adc cpuC5 0x50).p.testBit 1 = decide ((0x50 + 0x50 + 0 : Nat) % 256 = 0) ∧
    (cpu_adc cpuC5 0x50).p.testBit 7 = ((0x50 + 0x50 + 0 : Nat) % 256).testBit 7 ∧
    (cpu_adc cpuC5 0x50).x = cpuC5.x ∧ (cpu_adc cpuC5 0x50).y = cpuC5.y ∧
    (cpu_adc cpuC5 0x50).sp = cpuC5.sp ∧ (cpu_adc cpuC5 0x50).pc = cpuC5.pc ∧
    (cpu_adc cpuC5 0x50).cycles = cpuC5.cycles :=
  cpu_adc_spec cpuC5 0x50 (by decide) (by decide) (by decide) _ 0 _ rfl (by decide) rfl

/-- The NES state used as the C1 failing input: `P = 0x24` (bit 5, UNUSED,
set), `PC` pointing in RAM at an RTI opcode (`0x40`), and a stack whose
pending status byte (at `$01FB`) is `0x00`. -/
def nesC1 : NES :=
  { cpu := { a := 0, x := 0, y := 0, sp := 0xFA, p := 0x24, pc := 0x0200, cycles := 0 },
    ppu := ppu_reset,
    cart := { prg_rom := fun _ => 0, chr_rom := fun _ => 0,
              prg_rom_size := 16384, chr_rom_size := 0 },
    ram := fun i => if i = 0x0200 then 0x40 else 0 }

/-- C1: the UNUSED bit is NOT forced by RTI.  Case `0x40` of `cpu_step`
(nessy.c:697) assigns `cpu->p = cpu_pop(nes)` with no `|= FLAG_UNUSED`
(unlike PLP, nessy.c:591), so from a state with `P & 0x20 = 0x20` one RTI
whose popped status byte is 0 leaves `P = 0` — bit 5 clear. -/
theorem rti_drops_unused_flag :
    nesC1.cpu.p &&& 0x20 = 0x20 ∧
    (cpu_step nesC1).cpu.p = 0 ∧ (cpu_step nesC1).cpu.p &&& 0x20 = 0 := by
  refine ⟨by decide, by decide, by decide⟩

/-- The PPU state used as the C2 failing input: both write latches primed
(`scroll_latch = addr_latch = 1`) and `status = 0xC3`. -/
def nesC2 : NES :=
  { cpu := { a := 0, x := 0, y := 0, sp := 0xFD, p := 0x24, pc := 0, cycles := 0 },
    ppu := { ppu_reset with status := 0xC3, scroll_latch := 1, addr_latch := 1 },
    cart := { prg_rom := fun _ => 0, chr_rom := fun _ => 0,
              prg_rom_size := 16384, chr_rom_size := 0 },
    ram := fun _ => 0 }

/-- C2: reading PPU register 2 returns the status byte, clears bit 7 and
resets `addr_latch` — but the latch is NOT shared: `scroll_latch` stays 1,
so the next write to register 5 is treated as a second write (a first write
of `0xFF` would set `fine_x = 0xFF & 7 = 7`; instead `fine_x` stays 0 and
the second-write branch clears `scroll_latch`). -/
theorem status_read_misses_scroll_latch :
    (ppu_read_register nesC2 0x2002).1 = 0xC3 ∧
    ((ppu_read_register nesC2 0x2002).2).ppu.status = 0x43 ∧
    ((ppu_read_register nesC2 0x2002).2).ppu.addr_latch = 0 ∧
    ((ppu_read_register nesC2 0x2002).2).ppu.scroll_latch = 1 ∧
    (0xFF : Nat) &&& 0x7 = 7 ∧
    (ppu_write_register (ppu_read_register nesC2 0x2002).2 0x2005 0xFF).ppu.fine_x = 0 ∧
    (ppu_write_register (ppu_read_register nesC2 0x2002).2 0x2005 0xFF).ppu.scroll_latch = 0 := by
  refine ⟨by decide, by decide, by decide, by decide, by decide, by decide, by decide⟩

/-- Reading an address below `0x2000` hits mirrored RAM and has no side
effect: `cpu_read` returns the byte at `addr &&& 0x7FF` and the state
unchanged. -/
theorem cpu_read_ram (nes : NES) (addr : Nat) (h : addr < 0x2000) :
    cpu_read nes addr = (nes.ram (addr &&& 0x7FF), nes) := by
  simp only [cpu_read]
  rw [Nat.mod_eq_of_lt (lt_trans h (by norm_num))]
  rw [if_pos h]

/-- Splitting a 16-bit value at bit 8: the two masks are disjoint and
exhaustive. -/
theorem and_ff00_add_and_ff (ptr : Nat) (hptr : ptr < 65536) :
    (ptr &&& 0xFF00) + (ptr &&& 0xFF) = ptr := by
  have hd : ptr &&& 0xFFFF = ptr := by
    have h16 := Nat.and_pow_two_sub_one_eq_mod ptr 16
    norm_num at h16
    rw [h16]
    exact Nat.mod_eq_of_lt hptr
  have hor : ptr &&& 0xFFFF = (ptr &&& 0xFF00) ||| (ptr &&& 0xFF) := by
    rw [show (0xFFFF : Nat) = 0xFF00 ||| 0xFF from by decide]
    exact Nat.and_or_distrib_left ptr 0xFF00 0xFF
  have hA0 : (ptr &&& 0xFF00) % 256 = 0 := by
    have h8 := Nat.and_pow_two_sub_one_eq_mod (ptr &&& 0xFF00) 8
    norm_num at h8
    rw [← h8, Nat.and_assoc]
    rw [show (0xFF00 &&& 0xFF : Nat) = 0 from by decide]
    simp
  have hB : ptr &&& 0xFF = ptr % 256 := by
    have h8 := Nat.and_pow_two_sub_one_eq_mod ptr 8
    norm_num at h8
    exact h8
  have hblt : ptr &&& 0xFF < 2 ^ 8 := by
    rw [hB]; norm_num; omega
  have hadd := Nat.mul_add_lt_is_or hblt ((ptr &&& 0xFF00) / 256)
  norm_num at hadd
  have hmul : 256 * ((ptr &&& 0xFF00) / 256) = ptr &&& 0xFF00 := by omega
  rw [hmul] at hadd
  omega

/-- Closed form of the high-byte fetch address used by `addr_indirect`:
it stays inside the page of `ptr`, wrapping to `ptr - 255` when the low
byte of `ptr` is `0xFF`. -/
theorem jmp_bug_addr_closed (ptr : Nat) (hptr : ptr < 65536) :
    ((ptr &&& 0xFF00) ||| ((ptr + 1) &&& 0xFF)) =
      if ptr % 256 = 255 then ptr - 255 else ptr + 1 := by
  have hs := and_ff00_add_and_ff ptr hptr
  have hB1 : (ptr + 1) &&& 0xFF = (ptr + 1) % 256 := by
    have h8 := Nat.and_pow_two_sub_one_eq_mod (ptr + 1) 8
    norm_num at h8
    exact h8
  have hB : ptr &&& 0xFF = ptr % 256 := by
    have h8 := Nat.and_pow_two_sub_one_eq_mod ptr 8
    norm_num at h8
    exact h8
  have hblt : (ptr + 1) &&& 0xFF < 2 ^ 8 := by
    rw [hB1]; norm_num; omega
  have hA0 : (ptr &&& 0xFF00) % 256 = 0 := by
    have h8 := Nat.and_pow_two_sub_one_eq_mod (ptr &&& 0xFF00) 8
    norm_num at h8
    rw [← h8, Nat.and_assoc]
    rw [show (0xFF00 &&& 0xFF : Nat) = 0 from by decide]
    simp
  have hadd := Nat.mul_add_lt_is_or hblt ((ptr &&& 0xFF00) / 256)
  norm_num at hadd
  have hmul : 256 * ((ptr &&& 0xFF00) / 256) = ptr &&& 0xFF00 := by omega
  rw [hmul] at hadd
  by_cases h255 : ptr % 256 = 255 <;> simp only [h255, if_true, if_false] <;> omega

/-- State for the C6 concrete scenario: `JMP ($10FF)` at PC = 0x0200 with
memory `0x10FF = 0x34`, `0x1000 = 0x12`, `0x1100 = 0x56`.  All of these
live in mirrored RAM: `0x10FF &&& 0x7FF = 0xFF`, `0x1000 &&& 0x7FF = 0`,
`0x1100 &&& 0x7FF = 0x100`. -/
def nesC6 : NES :=
  { cpu := { a := 0, x := 0, y := 0, sp := 0xFD, p := 0x24, pc := 0x0200, cycles := 0 },
    ppu := ppu_reset,
    cart := { prg_rom := fun _ => 0, chr_rom := fun _ => 0,
              prg_rom_size := 16384, chr_rom_size := 0 },
    ram := fun i =>
      if i = 0x0200 then 0x6C else if i = 0x0201 then 0xFF else if i = 0x0202 then 0x10
      else if i = 0x00FF then 0x34 else if i = 0x000 then 0x12
      else if i = 0x100 then 0x56 else 0 }

/-- C6: the indirect-JMP page bug.  (i) `cpu_step` on a fetched opcode
`0x6C` sets the new PC to the address produced by `addr_indirect` on the
post-fetch state (and charges 5 cycles), where `addr_indirect` builds the
PC from low byte `mem[ptr]` and high byte `mem[(ptr &&& 0xFF00) |||
((ptr + 1) &&& 0xFF)]`; (ii) that high-byte fetch address equals `ptr + 1`
exactly when the low byte of `ptr` is not `0xFF`, and wraps to the start
of the page, `ptr - 255`, when it is; (iii) concretely, `JMP ($10FF)` with
memory `0x10FF = 0x34`, `0x1000 = 0x12`, `0x1100 = 0x56` lands on PC
`0x1234`, not `0x5634`. -/
theorem jmp_indirect_page_bug :
    (∀ nes s0 s1 : NES, cpu_read nes nes.cpu.pc = (0x6C, s0) →
      s1 = { s0 with cpu := { s0.cpu with pc := (s0.cpu.pc + 1) % 65536 } } →
      (cpu_step nes).cpu.pc = (addr_indirect s1).1.addr ∧
      (cpu_step nes).cpu.cycles = (addr_indirect s1).2.cpu.cycles + 5) ∧
    (∀ ptr : Nat, ptr < 65536 →
      (((ptr &&& 0xFF00) ||| ((ptr + 1) &&& 0xFF)) =
        if ptr % 256 = 255 then ptr - 255 else ptr + 1) ∧
      ((((ptr &&& 0xFF00) ||| ((ptr + 1) &&& 0xFF)) = ptr + 1) ↔ ptr % 256 ≠ 255)) ∧
    (cpu_step nesC6).cpu.pc = 0x1234 ∧ (cpu_step nesC6).cpu.pc ≠ 0x5634 := by
  refine ⟨?_, ?_, by decide, by decide⟩
  · intro nes s0 s1 hr hs1
    subst hs1
    constructor
    · delta cpu_step
      rw [hr]
      rfl
    · delta cpu_step
      rw [hr]
      rfl
  · intro ptr hptr
    refine ⟨jmp_bug_addr_closed ptr hptr, ?_⟩
    rw [jmp_bug_addr_closed ptr hptr]
    by_cases h255 : ptr % 256 = 255 <;> simp [h255] <;> omega

/-- C6 witness: the theorem applied to the concrete state `nesC6`
(discharging the fetch hypothesis by evaluation) and to `ptr = 0x10FF`. -/
theorem jmp_indirect_page_bug_witness :
    (cpu_step nesC6).cpu.pc =
      (addr_indirect { nesC6 with
        cpu := { nesC6.cpu with pc := (nesC6.cpu.pc + 1) % 65536 } }).1.addr ∧
    ((((0x10FF : Nat) &&& 0xFF00) ||| ((0x10FF + 1) &&& 0xFF)) = 0x10FF + 1 ↔
      (0x10FF : Nat) % 256 ≠ 255) :=
  ⟨(jmp_indirect_page_bug.1 nesC6 nesC6 _ rfl rfl).1,
   (jmp_indirect_page_bug.2.1 0x10FF (by decide)).2⟩

/-- `cpu_read` never changes the CPU registers, the RAM or the cartridge:
only a PPU-register read mutates state, and it only replaces the `ppu`
field. -/
theorem cpu_read_preserves (nes : NES) (addr : Nat) :
    (cpu_read nes addr).2.cpu = nes.cpu ∧ (cpu_read nes addr).2.ram = nes.ram ∧
    (cpu_read nes addr).2.cart = nes.cart := by
  simp only [cpu_read, ppu_read_register]
  repeat' split
  all_goals exact ⟨rfl, rfl, rfl⟩

/-- Reassembling a 16-bit value from its low byte and its high byte. -/
theorem lo_hi_reassemble (x : Nat) (hx : x < 65536) :
    (((x % 256) % 65536) ||| (((x >>> 8) % 256) <<< 8)) = x := by
  have h1 : (x % 256) % 65536 = x % 256 := Nat.mod_eq_of_lt (by omega)
  have h2 : x >>> 8 = x / 256 := by
    rw [Nat.shiftRight_eq_div_pow]
  have h3 : x / 256 % 256 = x / 256 := Nat.mod_eq_of_lt (by omega)
  have h4 : (x / 256) <<< 8 = 256 * (x / 256) := by
    rw [Nat.shiftLeft_eq]; norm_num [Nat.mul_comm]
  have h5 : x % 256 < 2 ^ 8 := by norm_num; omega
  have h6 := Nat.mul_add_lt_is_or h5 (x / 256)
  norm_num at h6
  rw [h1, h2, h3, h4, Nat.lor_comm]
  omega

/-- `cpu_step` on a fetched opcode `0x20` (JSR) reduces to the branch body:
fetch the absolute operand, push `PC − 1` high byte then low byte, jump. -/
theorem cpu_step_jsr (nes s0 : NES) (h : cpu_read nes nes.cpu.pc = (0x20, s0)) :
    cpu_step nes =
      (let nes1 : NES := { s0 with cpu := { s0.cpu with pc := (s0.cpu.pc + 1) % 65536 } }
       let m := addr_absolute nes1
       let nes2 := m.2
       let nes3 := cpu_push nes2 (((nes2.cpu.pc + 65535) % 65536) >>> 8)
       let nes4 := cpu_push nes3 ((nes3.cpu.pc + 65535) % 65536)
       { nes4 with cpu := { nes4.cpu with pc := m.1.addr, cycles := nes4.cpu.cycles + 6 } }) := by
  delta cpu_step
  rw [h]
  rfl

/-- `cpu_step` on a fetched opcode `0x60` (RTS) reduces to the branch body:
pop low byte then high byte, increment, add 6 cycles. -/
theorem cpu_step_rts (nes s0 : NES) (h : cpu_read nes nes.cpu.pc = (0x60, s0)) :
    cpu_step nes =
      (let nes1 : NES := { s0 with cpu := { s0.cpu with pc := (s0.cpu.pc + 1) % 65536 } }
       let rlo := cpu_pop nes1
       let nes2 : NES := { rlo.2 with cpu := { rlo.2.cpu with pc := rlo.1 % 65536 } }
       let rhi := cpu_pop nes2
       let nes3 : NES :=
         { rhi.2 with cpu := { rhi.2.cpu with pc := (rhi.2.cpu.pc ||| (rhi.1 <<< 8)) % 65536 } }
       let nes4 : NES := { nes3 with cpu := { nes3.cpu with pc := (nes3.cpu.pc + 1) % 65536 } }
       { nes4 with cpu := { nes4.cpu with cycles := nes4.cpu.cycles + 6 } }) := by
  delta cpu_step
  rw [h]
  rfl

/-- `addr_absolute` when the PC points into RAM: reads the little-endian
operand from mirrored RAM and advances PC by two, with no other change. -/
theorem addr_absolute_ram (nes : NES) (pc1 : Nat) (hpc : nes.cpu.pc = pc1)
    (h : pc1 + 1 < 0x2000) :
    addr_absolute nes =
      ({ addr := ((nes.ram ((pc1 + 1) &&& 0x7FF) % 65536) <<< 8 |||
                  nes.ram (pc1 &&& 0x7FF) % 65536) % 65536,
         value := 0, page_crossed := false },
       { nes with cpu := { nes.cpu with pc := pc1 + 2 } }) := by
  have e1 : (pc1 + 1) % 65536 = pc1 + 1 := by omega
  have e2 : (pc1 + 1 + 1) % 65536 = pc1 + 2 := by omega
  simp only [addr_absolute, hpc, cpu_read_ram nes pc1 (by omega), e1,
    cpu_read_ram { nes with cpu := { nes.cpu with pc := pc1 + 1 } } (pc1 + 1) (by omega), e2]

/-- State for the C7 concrete scenario: `JSR $1234` at PC = 0x0200 and an
RTS (`0x60`) at the target `0x1234` (mirrored RAM index `0x234`). -/
def nesC7 : NES :=
  { cpu := { a := 0, x := 0, y := 0, sp := 0xFD, p := 0x24, pc := 0x0200, cycles := 0 },
    ppu := ppu_reset,
    cart := { prg_rom := fun _ => 0, chr_rom := fun _ => 0,
              prg_rom_size := 16384, chr_rom_size := 0 },
    ram := fun i =>
      if i = 0x0200 then 0x20 else if i = 0x0201 then 0x34 else if i = 0x0202 then 0x12
      else if i = 0x0234 then 0x60 else 0 }

/-- C7: the JSR/RTS round trip.  From any state whose PC (pointing into
RAM, with room for the three JSR bytes) fetches opcode `0x20`: the JSR
jumps to the little-endian operand, pushes `PC_after_operand − 1 = PC + 2`
high byte first (the high byte lands at `0x100 + SP`, the low byte one
slot below), and leaves `SP` decremented by two; and if the next
`cpu_step` then fetches opcode `0x60` (RTS) — the stack untouched in
between — the PC becomes exactly `PC_after_operand = PC + 3` and `SP`
returns to its pre-JSR value. -/
theorem jsr_rts_round_trip (nes : NES) (pc0 sp0 : Nat)
    (hpc : nes.cpu.pc = pc0) (hpc2 : pc0 + 2 < 0x2000)
    (hsp : nes.cpu.sp = sp0) (hsp2 : sp0 < 256)
    (hop : nes.ram (pc0 &&& 0x7FF) = 0x20) :
    (cpu_step nes).cpu.pc =
      ((nes.ram ((pc0 + 2) &&& 0x7FF) % 65536) <<< 8 |||
        nes.ram ((pc0 + 1) &&& 0x7FF) % 65536) % 65536 ∧
    (cpu_step nes).cpu.sp = (sp0 + 254) % 256 ∧
    (cpu_step nes).ram (0x100 + sp0) = ((pc0 + 2) >>> 8) % 256 ∧
    (cpu_step nes).ram (0x100 + (sp0 + 255) % 256) = (pc0 + 2) % 256 ∧
    (∀ s0 : NES, cpu_read (cpu_step nes) (cpu_step nes).cpu.pc = (0x60, s0) →
      (cpu_step (cpu_step nes)).cpu.pc = pc0 + 3 ∧
      (cpu_step (cpu_step nes)).cpu.sp = sp0) := by
  have hr0 : cpu_read nes nes.cpu.pc = (0x20, nes) := by
    rw [hpc, cpu_read_ram nes pc0 (by omega), hop]
  have hstep := cpu_step_jsr nes nes hr0
  have e1 : (pc0 + 1) % 65536 = pc0 + 1 := by omega
  have e4 : pc0 + 1 + 2 = pc0 + 3 := by omega
  have e5 : (pc0 + 3 + 65535) % 65536 = pc0 + 2 := by omega
  have e6 : ((sp0 + 255) % 256 + 255) % 256 = (sp0 + 254) % 256 := by omega
  have e7 : pc0 + 1 + 1 = pc0 + 2 := by omega
  have haa := addr_absolute_ram
      { nes with cpu := { nes.cpu with pc := pc0 + 1 } } (pc0 + 1) rfl (by omega)
  have hform : cpu_step nes =
      { nes with
        ram := fun i =>
          if i = 0x100 + (sp0 + 255) % 256 then (pc0 + 2) % 256
          else if i = 0x100 + sp0 then ((pc0 + 2) >>> 8) % 256
          else nes.ram i,
        cpu := { nes.cpu with
          pc := ((nes.ram ((pc0 + 2) &&& 0x7FF) % 65536) <<< 8 |||
                 nes.ram ((pc0 + 1) &&& 0x7FF) % 65536) % 65536,
          sp := (sp0 + 254) % 256,
          cycles := nes.cpu.cycles + 6 } } := by
    rw [hstep]
    simp only [hpc, e1, haa]
    simp only [cpu_push, hsp, e4, e5, e6, e7]
  refine ⟨by rw [hform], by rw [hform], ?_, ?_, ?_⟩
  · rw [hform]
    show (if 0x100 + sp0 = 0x100 + (sp0 + 255) % 256 then (pc0 + 2) % 256
          else if 0x100 + sp0 = 0x100 + sp0 then ((pc0 + 2) >>> 8) % 256
          else nes.ram (0x100 + sp0)) = ((pc0 + 2) >>> 8) % 256
    rw [if_neg (by omega), if_pos rfl]
  · rw [hform]
    show (if 0x100 + (sp0 + 255) % 256 = 0x100 + (sp0 + 255) % 256 then (pc0 + 2) % 256
          else if 0x100 + (sp0 + 255) % 256 = 0x100 + sp0 then ((pc0 + 2) >>> 8) % 256
          else nes.ram (0x100 + (sp0 + 255) % 256)) = (pc0 + 2) % 256
    rw [if_pos rfl]
  · intro s0 hrts
    have hpres := cpu_read_preserves (cpu_step nes) ((cpu_step nes).cpu.pc)
    rw [hrts] at hpres
    have hcpu : s0.cpu = (cpu_step nes).cpu := hpres.1
    have hram : s0.ram = (cpu_step nes).ram := hpres.2.1
    have hsp4 : (cpu_step nes).cpu.sp = (sp0 + 254) % 256 := by rw [hform]
    have hram4 : ∀ i, (cpu_step nes).ram i =
        if i = 0x100 + (sp0 + 255) % 256 then (pc0 + 2) % 256
        else if i = 0x100 + sp0 then ((pc0 + 2) >>> 8) % 256
        else nes.ram i := by
      intro i; rw [hform]
    have hsps0 : s0.cpu.sp = (sp0 + 254) % 256 := by rw [hcpu, hsp4]
    have e8 : ((sp0 + 254) % 256 + 1) % 256 = (sp0 + 255) % 256 := by omega
    have e9 : ((sp0 + 255) % 256 + 1) % 256 = sp0 := by omega
    have hv1 : s0.ram (0x100 + (sp0 + 255) % 256) = (pc0 + 2) % 256 := by
      rw [hram, hram4, if_pos rfl]
    have hv2 : s0.ram (0x100 + sp0) = ((pc0 + 2) >>> 8) % 256 := by
      rw [hram, hram4, if_neg (by omega), if_pos rfl]
    have hre := lo_hi_reassemble (pc0 + 2) (by omega)
    have e11 : (pc0 + 2 + 1) % 65536 = pc0 + 3 := by omega
    have hstep2 := cpu_step_rts (cpu_step nes) s0 hrts
    rw [hstep2]
    constructor
    · simp only [cpu_pop, hsps0, e8, hv1, e9, hv2, hre, e11]
      omega
    · simp only [cpu_pop, hsps0, e8, e9]

/-- C7 witness: the theorem at the concrete state `nesC7` (`JSR $1234`
from PC = 0x0200 with an RTS at the target), the RTS fetch hypothesis
discharged by evaluation. -/
theorem jsr_rts_round_trip_witness :
    (cpu_step nesC7).cpu.pc =
      ((nesC7.ram ((0x0200 + 2) &&& 0x7FF) % 65536) <<< 8 |||
        nesC7.ram ((0x0200 + 1) &&& 0x7FF) % 65536) % 65536 ∧
    (cpu_step (cpu_step nesC7)).cpu.pc = 0x0200 + 3 ∧
    (cpu_step (cpu_step nesC7)).cpu.sp = 0xFD := by
  have h := jsr_rts_round_trip nesC7 0x0200 0xFD rfl (by decide) rfl (by decide) (by decide)
  exact ⟨h.1, (h.2.2.2.2 (cpu_step nesC7) rfl).1, (h.2.2.2.2 (cpu_step nesC7) rfl).2⟩

end Nessy
